import Mathlib

/-!
# Verification of the generative-art-studio generation engine

A shallow embedding, in Lean 4, of the core of the repository:

* the Scene model (`ArtworkData`, `PathElement`, `CircleElement`) from
  `src/generators/base.py`;
* the generic parameter validation `BaseGenerator.validate_parameters`
  from `src/generators/base.py`;
* the random-walk generator from `src/generators/random_walk.py`;
* the mathematical-pattern generator from `src/generators/mathematical.py`;
* the layer-mode scene merge from `src/gui/main_window.py`.

Modelling conventions:

* Python floats are modelled as exact rationals (`ℚ`).  Every IEEE double
  is a rational number; we do not model rounding of individual operations.
* The `math` library functions (`pi`, `cos`, `sin`, `sqrt`) are bundled in
  an explicit environment `MathEnv` of rational-valued functions, a
  parameter of the embedding; theorems that do not depend on trigonometric
  identities quantify over all environments.
* The global `random` module is an explicit stream of draws in `[0,1]`
  together with a position (`Rng`); `random.seed` installs a stream that is
  a function of the seed alone.  `random.uniform(a, b)` is
  `a + (b - a) * random()`, exactly as in CPython.
* Progress callbacks are write-only observers in the source (their return
  value is ignored and nothing they could compute flows back into the
  generated scene); they are modelled by a `Bool` flag recording whether a
  sink was supplied, which the computation of the scene never reads.
* Fallible Python code (a raised exception, e.g. `int('abc')` or an
  unparsable hex colour) is modelled with `Option`: `none` is a raise.
-/

/-- `PathElement` from `src/generators/base.py`: an open or closed polyline. -/
structure PathElement where
  points : List (ℚ × ℚ)
  color : ℤ × ℤ × ℤ
  width : ℚ := 1
  closed : Bool := false
  deriving Repr, DecidableEq

/-- `CircleElement` from `src/generators/base.py`. -/
structure CircleElement where
  center : ℚ × ℚ
  radius : ℚ
  color : ℤ × ℤ × ℤ
  fill : Bool := true
  stroke_width : ℚ := 1
  deriving Repr, DecidableEq

/-- `ArtworkData` from `src/generators/base.py`: the format-agnostic scene. -/
structure ArtworkData where
  width : ℤ
  height : ℤ
  background_color : ℤ × ℤ × ℤ := (255, 255, 255)
  paths : List PathElement := []
  circles : List CircleElement := []
  deriving Repr, DecidableEq

/-- The layer-mode merge performed in `MainWindow._generate_artwork`
(`src/gui/main_window.py`): a fresh `ArtworkData` whose primitive lists are
the concatenation of the previous artwork's and the new artwork's. -/
def mergeScenes (width height : ℤ) (previous_artwork new_artwork : ArtworkData) :
    ArtworkData :=
  { width := width
    height := height
    background_color := previous_artwork.background_color
    paths := previous_artwork.paths ++ new_artwork.paths
    circles := previous_artwork.circles ++ new_artwork.circles }

/-- A Python value as it can appear in a raw parameter dictionary. -/
inductive Value where
  | vInt (n : ℤ)
  | vFloat (q : ℚ)
  | vStr (s : String)
  | vBool (b : Bool)
  deriving Repr, DecidableEq

/-- A raw or validated parameter dictionary (`Dict[str, Any]`). -/
abbrev RawMap := List (String × Value)

/-- `params.get(name)`: look a key up in a parameter dictionary. -/
def lookupKey : RawMap → String → Option Value
  | [], _ => none
  | (k, v) :: rest, name => if name = k then some v else lookupKey rest name

/-- A parameter definition, one entry of a generator's `get_parameters()`
schema.  Numeric bounds are optional, as in `validate_parameters` which
tests `'min' in definition`. -/
inductive PDef where
  | pInt (default : ℤ) (lo hi : Option ℤ)
  | pFloat (default : ℚ) (lo hi : Option ℚ)
  | pChoice (default : String) (choices : List String)
  | pBool (default : Bool)
  | pColor (default : String)
  deriving Repr, DecidableEq

/-- The default of a parameter definition, as a `Value`. -/
def PDef.defaultValue : PDef → Value
  | .pInt d _ _ => .vInt d
  | .pFloat d _ _ => .vFloat d
  | .pChoice d _ => .vStr d
  | .pBool d => .vBool d
  | .pColor d => .vStr d

/-- Truncation toward zero, Python's `int(float)`. -/
def ratTrunc (q : ℚ) : ℤ := Int.tdiv q.num q.den

/-- Value of a decimal digit character. -/
def digitVal (c : Char) : Option ℕ :=
  if c.isDigit then some (c.toNat - 48) else none

/-- Parse a non-empty run of decimal digits. -/
def parseNatDigits : List Char → Option ℕ
  | [] => none
  | cs => cs.foldlM (fun acc c => (digitVal c).map fun d => 10 * acc + d) 0

/-- Python `int(str)` on the plain integer-literal subset
(optional sign then digits); anything else raises (`none`). -/
def pyIntOfString (s : String) : Option ℤ :=
  match s.data with
  | '-' :: rest => (parseNatDigits rest).map fun n => -(n : ℤ)
  | '+' :: rest => (parseNatDigits rest).map fun n => (n : ℤ)
  | cs => (parseNatDigits cs).map fun n => (n : ℤ)

/-- Python `float(str)` on the plain decimal-literal subset
(optional sign, digits, optional point and digits); else raises. -/
def pyFloatOfString (s : String) : Option ℚ :=
  let core : List Char → Option ℚ := fun cs =>
    match cs.splitOn '.' with
    | [whole] => (parseNatDigits whole).map fun n => (n : ℚ)
    | [whole, frac] =>
        match parseNatDigits whole, parseNatDigits frac with
        | some w, some f => some ((w : ℚ) + (f : ℚ) / (10 : ℚ) ^ frac.length)
        | _, _ => none
    | _ => none
  match s.data with
  | '-' :: rest => (core rest).map fun q => -q
  | '+' :: rest => core rest
  | cs => core cs

/-- Python `int(value)`: identity on ints, 0/1 on bools, truncation on
floats, literal parsing on strings (raising on a non-literal). -/
def pyToInt : Value → Option ℤ
  | .vInt n => some n
  | .vBool b => some (if b then 1 else 0)
  | .vFloat q => some (ratTrunc q)
  | .vStr s => pyIntOfString s

/-- Python `float(value)`. -/
def pyToFloat : Value → Option ℚ
  | .vInt n => some (n : ℚ)
  | .vBool b => some (if b then 1 else 0)
  | .vFloat q => some q
  | .vStr s => pyFloatOfString s

/-- Python `bool(value)` (total, never raises). -/
def pyToBool : Value → Bool
  | .vInt n => n != 0
  | .vBool b => b
  | .vFloat q => q != 0
  | .vStr s => s != ""

/-- One iteration of the loop in `BaseGenerator.validate_parameters`
(`src/generators/base.py`): fetch the raw value or the default, then apply
the type-specific coercion, clamping, or choice fallback. -/
def validateOne (params : RawMap) : String × PDef → Option (String × Value)
  | (name, .pInt d lo hi) =>
      let value := (lookupKey params name).getD (Value.vInt d)
      (pyToInt value).map fun n =>
        let n := match lo with | some a => max n a | none => n
        let n := match hi with | some b => min n b | none => n
        (name, .vInt n)
  | (name, .pFloat d lo hi) =>
      let value := (lookupKey params name).getD (Value.vFloat d)
      (pyToFloat value).map fun q =>
        let q := match lo with | some a => max q a | none => q
        let q := match hi with | some b => min q b | none => q
        (name, .vFloat q)
  | (name, .pChoice d choices) =>
      let value := (lookupKey params name).getD (Value.vStr d)
      some (name, if choices.any fun c => value = Value.vStr c then value else .vStr d)
  | (name, .pBool d) =>
      let value := (lookupKey params name).getD (Value.vBool d)
      some (name, .vBool (pyToBool value))
  | (name, .pColor d) =>
      let value := (lookupKey params name).getD (Value.vStr d)
      some (name, value)

/-- `BaseGenerator.validate_parameters`: validate every declared parameter
in schema order; a failing coercion raises (`none`). -/
def validate_parameters (params : RawMap) : List (String × PDef) → Option RawMap
  | [] => some []
  | entry :: rest => do
      let v ← validateOne params entry
      let r ← validate_parameters params rest
      pure (v :: r)

/-- The `math`-library environment: `math.pi`, `math.cos`, `math.sin` and
`math.sqrt` as rational-valued functions (every IEEE double is rational).
Theorems that do not rest on trigonometric identities hold for every
environment. -/
structure MathEnv where
  piV : ℚ
  cosF : ℚ → ℚ
  sinF : ℚ → ℚ
  sqrtF : ℚ → ℚ

/-- `math.radians(deg) = deg * pi / 180`. -/
def radians (env : MathEnv) (deg : ℚ) : ℚ := deg * env.piV / 180

/-- The global `random` module: an explicit stream of draws (each intended
to lie in `[0,1]`) and a current position. -/
structure Rng where
  stream : ℕ → ℚ
  pos : ℕ

/-- `random.random()`: consume one draw. -/
def Rng.next (g : Rng) : ℚ × Rng := (g.stream g.pos, ⟨g.stream, g.pos + 1⟩)

/-- Every draw of the stream lies in `[0,1]` (true of `random.random`,
whose values lie in `[0,1)`, and of `random.uniform`'s normalized form). -/
def Rng.InRange (g : Rng) : Prop := ∀ n, 0 ≤ g.stream n ∧ g.stream n ≤ 1

/-- `random.uniform(a, b) = a + (b - a) * random()`, as in CPython. -/
def pyUniform (a b : ℚ) (g : Rng) : ℚ × Rng :=
  let r := g.next
  (a + (b - a) * r.1, r.2)

/-- `random.choice` on a list of `n` items: an index below `n` derived from
one draw. -/
def pyChoiceIdx (n : ℕ) (g : Rng) : ℕ × Rng :=
  let r := g.next
  (min (⌊r.1 * n⌋).toNat (n - 1), r.2)

/-- `random.randint(a, b)`: an integer in `[a, b]` derived from one draw. -/
def pyRandInt (a b : ℤ) (g : Rng) : ℤ × Rng :=
  let r := g.next
  (a + min ⌊r.1 * (b - a + 1)⌋ (b - a), r.2)

/-- One step of a linear congruential generator, the concrete model of the
Mersenne Twister behind `random.seed`. -/
def lcgNext (s : ℕ) : ℕ := (1103515245 * s + 12345) % 2 ^ 31

/-- Iterated LCG state. -/
def lcgIterate (s : ℕ) : ℕ → ℕ
  | 0 => s % 2 ^ 31
  | n + 1 => lcgNext (lcgIterate s n)

/-- `random.seed(seed)`: the stream is a function of the seed alone. -/
def mkSeeded (seed : ℤ) : Rng :=
  ⟨fun n => (lcgIterate seed.natAbs (n + 1) : ℚ) / 2 ^ 31, 0⟩

/-- One hexadecimal digit. -/
def hexDigit (c : Char) : Option ℕ :=
  if c.isDigit then some (c.toNat - 48)
  else if 'a' ≤ c && c ≤ 'f' then some (c.toNat - 87)
  else if 'A' ≤ c && c ≤ 'F' then some (c.toNat - 55)
  else none

/-- Python `int(s[i:i+2], 16)` where the slice may be 2, 1 or 0 characters
long (an empty slice raises). -/
def hexPairAt (cs : List Char) (i : ℕ) : Option ℤ :=
  match cs.drop i with
  | [] => none
  | [c] => (hexDigit c).map fun d => (d : ℤ)
  | c1 :: c2 :: _ =>
      match hexDigit c1, hexDigit c2 with
      | some d1, some d2 => some ((16 * d1 + d2 : ℕ) : ℤ)
      | _, _ => none

/-- `_hex_to_rgb` from `src/generators/random_walk.py` /
`src/generators/mathematical.py`: strip leading `#`, then parse the three
two-character slices; an unparsable string raises. -/
def hex_to_rgb (s : String) : Option (ℤ × ℤ × ℤ) :=
  let cs := s.data.dropWhile (· = '#')
  match hexPairAt cs 0, hexPairAt cs 2, hexPairAt cs 4 with
  | some r, some g, some b => some (r, g, b)
  | _, _, _ => none

/-- `colorsys.hsv_to_rgb` (used by the random-walk rainbow mode), CPython's
sector algorithm over exact rationals. -/
def colorsysHsvToRgb (h s v : ℚ) : ℚ × ℚ × ℚ :=
  if s = 0 then (v, v, v)
  else
    let i := ratTrunc (h * 6)
    let f := h * 6 - i
    let p := v * (1 - s)
    let q := v * (1 - s * f)
    let t := v * (1 - s * (1 - f))
    let i := i % 6
    if i = 0 then (v, t, p)
    else if i = 1 then (q, v, p)
    else if i = 2 then (p, v, t)
    else if i = 3 then (p, q, v)
    else if i = 4 then (t, p, v)
    else (v, q, p)

/-- `RandomWalkGenerator._hsv_to_rgb`: `colorsys` conversion scaled to
`0..255` ints. -/
def rwHsvToRgb (h s v : ℚ) : ℤ × ℤ × ℤ :=
  let (r, g, b) := colorsysHsvToRgb h s v
  (ratTrunc (r * 255), ratTrunc (g * 255), ratTrunc (b * 255))

/-- Python `x % m` on floats for a positive modulus (the result has the
sign of the divisor), over exact rationals. -/
def qmod (x m : ℚ) : ℚ := x - m * ⌊x / m⌋

/-- Look a key up in a validated parameter dictionary (`params[name]`);
validated dictionaries contain every declared key. -/
def getV (m : RawMap) (k : String) : Value := (lookupKey m k).getD (.vInt 0)

/-- Read a `Value` as a Python int in contexts where an int is present. -/
def Value.asInt : Value → ℤ
  | .vInt n => n
  | .vBool b => if b then 1 else 0
  | .vFloat q => ratTrunc q
  | .vStr _ => 0

/-- Read a `Value` as a Python float in numeric contexts. -/
def Value.asQ : Value → ℚ
  | .vInt n => (n : ℚ)
  | .vBool b => if b then 1 else 0
  | .vFloat q => q
  | .vStr _ => 0

/-- Read a `Value` as a string (choice and colour parameters). -/
def Value.asStr : Value → String
  | .vStr s => s
  | _ => ""

/-- The parameter schema of `RandomWalkGenerator.get_parameters`
(`src/generators/random_walk.py`). -/
def randomWalkSchema : List (String × PDef) :=
  [("num_walks", .pInt 5 (some 1) (some 50)),
   ("steps_per_walk", .pInt 1000 (some 10) (some 10000)),
   ("step_size", .pFloat 5 (some (1/2)) (some 50)),
   ("angle_variation", .pFloat 180 (some 0) (some 360)),
   ("line_width", .pFloat 1 (some (1/10)) (some 10)),
   ("color_mode", .pChoice "monochrome" ["monochrome", "grayscale", "color", "rainbow"]),
   ("base_color", .pColor "#000000"),
   ("background_color", .pColor "#FFFFFF"),
   ("start_position", .pChoice "center" ["center", "random", "edges", "corners"]),
   ("boundary_behavior", .pChoice "bounce" ["bounce", "wrap", "stop", "ignore"]),
   ("add_nodes", .pBool false),
   ("seed", .pInt 0 (some 0) (some 999999))]

/-- `RandomWalkGenerator._handle_boundary`: returns the possibly adjusted
point and whether the walk continues. -/
def handle_boundary (x y : ℚ) (width height : ℤ) (behavior : String) :
    ℚ × ℚ × Bool :=
  if behavior = "ignore" then (x, y, true)
  else if behavior = "stop" then
    if x < 0 ∨ x > (width : ℚ) ∨ y < 0 ∨ y > (height : ℚ) then (x, y, false)
    else (x, y, true)
  else if behavior = "bounce" then
    let x := if x < 0 then -x else if x > (width : ℚ) then 2 * width - x else x
    let y := if y < 0 then -y else if y > (height : ℚ) then 2 * height - y else y
    (x, y, true)
  else if behavior = "wrap" then (qmod x width, qmod y height, true)
  else (x, y, true)

/-- `RandomWalkGenerator._get_start_position`. -/
def get_start_position (width height : ℤ) (mode : String) (g : Rng) :
    (ℚ × ℚ) × Rng :=
  if mode = "center" then (((width : ℚ) / 2, (height : ℚ) / 2), g)
  else if mode = "random" then
    let rx := pyUniform 0 width g
    let ry := pyUniform 0 height rx.2
    ((rx.1, ry.1), ry.2)
  else if mode = "edges" then
    let ri := pyChoiceIdx 4 g
    if ri.1 = 0 then let rx := pyUniform 0 width ri.2; ((rx.1, 0), rx.2)
    else if ri.1 = 1 then let rx := pyUniform 0 width ri.2; ((rx.1, (height : ℚ)), rx.2)
    else if ri.1 = 2 then let ry := pyUniform 0 height ri.2; ((0, ry.1), ry.2)
    else let ry := pyUniform 0 height ri.2; (((width : ℚ), ry.1), ry.2)
  else if mode = "corners" then
    let ri := pyChoiceIdx 4 g
    ([((0 : ℚ), (0 : ℚ)), ((width : ℚ), 0), (0, (height : ℚ)),
      ((width : ℚ), (height : ℚ))].getD ri.1 (0, 0), ri.2)
  else (((width : ℚ) / 2, (height : ℚ) / 2), g)

/-- The per-call context of one `_generate_walk` invocation: canvas size
and the validated numeric parameters the step loop reads. -/
structure WalkCtx where
  env : MathEnv
  width : ℤ
  height : ℤ
  steps_per_walk : ℕ
  step_size : ℚ
  angle_variation : ℚ
  behavior : String

/-- The step loop of `RandomWalkGenerator._generate_walk`: each iteration
perturbs the heading by a uniform draw, steps forward, applies the boundary
policy, and either appends the adjusted point or breaks the walk. -/
def walk_steps (c : WalkCtx) : ℕ → ℚ → ℚ → ℚ → Rng → List (ℚ × ℚ) × Rng
  | 0, _, _, _, g => ([], g)
  | n + 1, x, y, current_angle, g =>
      let angle_var_rad := radians c.env c.angle_variation
      let ru := pyUniform (-(angle_var_rad / 2)) (angle_var_rad / 2) g
      let new_angle := current_angle + ru.1
      let dx := c.env.cosF new_angle * c.step_size
      let dy := c.env.sinF new_angle * c.step_size
      let r := handle_boundary (x + dx) (y + dy) c.width c.height c.behavior
      if r.2.2 then
        let res := walk_steps c n r.1 r.2.1 new_angle ru.2
        ((r.1, r.2.1) :: res.1, res.2)
      else ([], ru.2)

/-- `RandomWalkGenerator._generate_walk`: start point, initial heading,
then the step loop; the start point is always the first point. -/
def generate_walk (c : WalkCtx) (start_mode : String) (g : Rng) :
    List (ℚ × ℚ) × Rng :=
  let rs := get_start_position c.width c.height start_mode g
  let ra := pyUniform 0 (2 * c.env.piV) rs.2
  let rst := walk_steps c c.steps_per_walk rs.1.1 rs.1.2 ra.1 ra.2
  ((rs.1.1, rs.1.2) :: rst.1, rst.2)

/-- `RandomWalkGenerator._get_walk_color`; the monochrome branch parses the
base colour (and can raise), the `color` branch consumes three draws. -/
def get_walk_color (index : ℕ) (num_walks : ℤ) (color_mode base_color : String)
    (g : Rng) : Option (ℤ × ℤ × ℤ) × Rng :=
  if color_mode = "monochrome" then (hex_to_rgb base_color, g)
  else if color_mode = "grayscale" then
    let value := if num_walks = 1 then 0 else ratTrunc (255 * index / ((num_walks : ℚ) - 1))
    (some (value, value, value), g)
  else if color_mode = "color" then
    let r1 := pyRandInt 0 255 g
    let r2 := pyRandInt 0 255 r1.2
    let r3 := pyRandInt 0 255 r2.2
    (some (r1.1, r2.1, r3.1), r3.2)
  else if color_mode = "rainbow" then
    let hue := if num_walks > 1 then (index : ℚ) / (num_walks : ℚ) else 0
    (some (rwHsvToRgb hue 1 1), g)
  else (some (0, 0, 0), g)

/-- The walk loop of `RandomWalkGenerator.generate`: for each walk index,
pick the colour, generate the walk, append the path, and append an endpoint
node when requested. -/
def rw_loop (c : WalkCtx) (num_walks : ℤ) (color_mode base_color : String)
    (add_nodes : Bool) (line_width : ℚ) (start_mode : String) :
    ℕ → ℕ → ArtworkData → Rng → Option ArtworkData
  | 0, _, artwork, _ => some artwork
  | k + 1, i, artwork, g => do
      let rc := get_walk_color i num_walks color_mode base_color g
      let walk_color ← rc.1
      let rgw := generate_walk c start_mode rc.2
      let path : PathElement :=
        { points := rgw.1, color := walk_color, width := line_width, closed := false }
      let artwork := { artwork with paths := artwork.paths ++ [path] }
      let artwork :=
        match add_nodes, path.points.getLast? with
        | true, some last_point =>
            { artwork with
              circles := artwork.circles ++
                [{ center := last_point, radius := line_width * 2,
                   color := walk_color, fill := true }] }
        | _, _ => artwork
      rw_loop c num_walks color_mode base_color add_nodes line_width start_mode
        k (i + 1) artwork rgw.2

/-- `RandomWalkGenerator.generate`: validate the parameters, seed the
stream when `seed > 0`, then run the walk loop.  `progress_sink` records
whether a progress callback was supplied; callbacks are write-only
observers in the source (§4.1 of the spec) and nothing the scene contains
reads the flag. -/
def rwGenerate (env : MathEnv) (width height : ℤ) (params0 : RawMap) (g0 : Rng)
    (progress_sink : Bool) : Option ArtworkData := do
  let params ← validate_parameters params0 randomWalkSchema
  let seed := (getV params "seed").asInt
  let g := if seed > 0 then mkSeeded seed else g0
  let bg ← hex_to_rgb (getV params "background_color").asStr
  let artwork : ArtworkData :=
    { width := width, height := height, background_color := bg }
  let c : WalkCtx :=
    { env := env, width := width, height := height,
      steps_per_walk := (getV params "steps_per_walk").asInt.toNat,
      step_size := (getV params "step_size").asQ,
      angle_variation := (getV params "angle_variation").asQ,
      behavior := (getV params "boundary_behavior").asStr }
  let _ := progress_sink
  rw_loop c (getV params "num_walks").asInt
    (getV params "color_mode").asStr (getV params "base_color").asStr
    (pyToBool (getV params "add_nodes")) (getV params "line_width").asQ
    (getV params "start_position").asStr
    (getV params "num_walks").asInt.toNat 0 artwork g

/-- Read a `Value` in a numeric context without coercion (`density *
completeness`, `t * complexity`, ...): Python accepts ints, floats and
bools there and raises `TypeError` on anything else. -/
def Value.toNum : Value → Option ℚ
  | .vInt n => some (n : ℚ)
  | .vFloat q => some q
  | .vBool b => some (if b then 1 else 0)
  | .vStr _ => none

/-- Read a `Value` where Python requires an integer (`range(symmetry)`):
ints and bools only. -/
def Value.toIndex : Value → Option ℤ
  | .vInt n => some n
  | .vBool b => some (if b then 1 else 0)
  | _ => none

/-- `MathematicalPatternsGenerator._rgb_to_hsv` (hue in degrees). -/
def rgb_to_hsv (r g b : ℤ) : ℚ × ℚ × ℚ :=
  let r : ℚ := (r : ℚ) / 255
  let g : ℚ := (g : ℚ) / 255
  let b : ℚ := (b : ℚ) / 255
  let max_c := max r (max g b)
  let min_c := min r (min g b)
  let diff := max_c - min_c
  let h :=
    if max_c = min_c then 0
    else if max_c = r then qmod (60 * ((g - b) / diff) + 360) 360
    else if max_c = g then qmod (60 * ((b - r) / diff) + 120) 360
    else qmod (60 * ((r - g) / diff) + 240) 360
  let s := if max_c = 0 then 0 else diff / max_c
  (h, s, max_c)

/-- `MathematicalPatternsGenerator._hsv_to_rgb` (sector arithmetic, not
`colorsys`). -/
def mp_hsv_to_rgb (h s v : ℚ) : ℤ × ℤ × ℤ :=
  let c := v * s
  let x := c * (1 - |qmod (h / 60) 2 - 1|)
  let m := v - c
  let rgb : ℚ × ℚ × ℚ :=
    if 0 ≤ h ∧ h < 60 then (c, x, 0)
    else if 60 ≤ h ∧ h < 120 then (x, c, 0)
    else if 120 ≤ h ∧ h < 180 then (0, c, x)
    else if 180 ≤ h ∧ h < 240 then (0, x, c)
    else if 240 ≤ h ∧ h < 300 then (x, 0, c)
    else (c, 0, x)
  (ratTrunc ((rgb.1 + m) * 255), ratTrunc ((rgb.2.1 + m) * 255),
   ratTrunc ((rgb.2.2 + m) * 255))

/-- The per-call state `MathematicalPatternsGenerator.generate` stores on
`self` for its helpers (`_current_color`, `_color_scheme`,
`_color_variation`, `_organic_factor`, `_completeness`), plus the math
environment and canvas size. -/
structure MathCtx where
  env : MathEnv
  width : ℤ
  height : ℤ
  current_color : String
  color_scheme : String
  color_variation : ℚ
  organic_factor : ℚ
  completeness : ℚ

/-- `MathematicalPatternsGenerator._get_color_for_element`: derive the
element colour from the base colour per scheme; the `random` scheme
consumes three draws; an unparsable base colour raises. -/
def get_color_for_element (c : MathCtx) (index : ℕ) (total : ℤ) (g : Rng) :
    Option (ℤ × ℤ × ℤ) × Rng :=
  match hex_to_rgb c.current_color with
  | none => (none, g)
  | some (r, gc, b) =>
    let (h, s, v) := rgb_to_hsv r gc b
    let t := (index : ℚ) / (max (total - 1) 1 : ℤ)
    if c.color_scheme = "monochrome" then
      (some (mp_hsv_to_rgb h s (v * (1/2 + 1/2 * t))), g)
    else if c.color_scheme = "gradient" then
      let hue_shift := c.color_variation * 120
      (some (mp_hsv_to_rgb (qmod (h + t * hue_shift) 360) s v), g)
    else if c.color_scheme = "complementary" then
      let new_h := if index % 2 = 0 then h else qmod (h + 180) 360
      (some (mp_hsv_to_rgb new_h s v), g)
    else if c.color_scheme = "analogous" then
      let hue_shift := c.color_variation * 60
      (some (mp_hsv_to_rgb (qmod (h + (t - 1/2) * hue_shift) 360) s v), g)
    else if c.color_scheme = "triadic" then
      let offset := ((index % 3 : ℕ) : ℚ) * 120
      (some (mp_hsv_to_rgb (qmod (h + offset) 360) s v), g)
    else if c.color_scheme = "random" then
      let hue_shift := c.color_variation * 360
      let u1 := pyUniform (-hue_shift) hue_shift g
      let u2 := pyUniform (-(3/10)) (3/10) u1.2
      let u3 := pyUniform (-(3/10)) (3/10) u2.2
      let new_h := qmod (h + u1.1) 360
      let new_s := max 0 (min 1 (s * (1 + u2.1 * c.color_variation)))
      let new_v := max 0 (min 1 (v * (1 + u3.1 * c.color_variation)))
      (some (mp_hsv_to_rgb new_h new_s new_v), u3.2)
    else (some (mp_hsv_to_rgb h s v), g)

/-- The sample loop of `_generate_spiral`: one point per iteration, with
conditional organic draws for angle, radius and position jitter. -/
def spiral_points (c : MathCtx) (density complexity max_radius angle_offset cx cy : ℚ) :
    ℕ → ℕ → Rng → List (ℚ × ℚ) × Rng
  | 0, _, g => ([], g)
  | k + 1, i, g =>
      let t := (i : ℚ) / density
      let angle0 := t * complexity * 2 * c.env.piV + angle_offset
      let ra :=
        if c.organic_factor > 0 then
          let u := pyUniform (-(1/20)) (1/20) g
          (angle0 + u.1 * c.organic_factor * c.env.piV, u.2)
        else (angle0, g)
      let radius0 := t * max_radius
      let rr :=
        if c.organic_factor > 0 then
          let u := pyUniform (-(1/10)) (1/10) ra.2
          (radius0 * (1 + u.1 * c.organic_factor), u.2)
        else (radius0, ra.2)
      let x := cx + rr.1 * c.env.cosF ra.1
      let y := cy + rr.1 * c.env.sinF ra.1
      let rj :=
        if c.organic_factor > 0 then
          let jitter := 5 * c.organic_factor
          let ux := pyUniform (-jitter) jitter rr.2
          let uy := pyUniform (-jitter) jitter ux.2
          (x + ux.1, y + uy.1, uy.2)
        else (x, y, rr.2)
      let res := spiral_points c density complexity max_radius angle_offset cx cy k (i + 1) rj.2.2
      ((rj.1, rj.2.1) :: res.1, res.2)

/-- The rotation loop of `_generate_spiral`. -/
def gen_spiral (c : MathCtx) (density complexity : ℚ) (line_width : ℚ)
    (symmetry : ℤ) (actual_density : ℕ) :
    ℕ → ℕ → ArtworkData → Rng → Option (ArtworkData × Rng)
  | 0, _, artwork, g => some (artwork, g)
  | k + 1, sym, artwork, g => do
      let cx : ℚ := (artwork.width : ℚ) / 2
      let cy : ℚ := (artwork.height : ℚ) / 2
      let max_radius : ℚ := (min artwork.width artwork.height : ℤ) * (2/5)
      let angle_offset := 2 * c.env.piV * sym / (symmetry : ℚ)
      let ro :=
        if c.organic_factor > 0 then
          let u := pyUniform (-(1/10)) (1/10) g
          (angle_offset + u.1 * c.organic_factor, u.2)
        else (angle_offset, g)
      let rp :=
        spiral_points c density complexity max_radius ro.1 cx cy actual_density 0 ro.2
      let rart ←
        if 1 < rp.1.length then do
          let rc := get_color_for_element c sym symmetry rp.2
          let path_color ← rc.1
          pure ({ artwork with paths := artwork.paths ++
            [{ points := rp.1, color := path_color,
               width := line_width, closed := false }] }, rc.2)
        else pure (artwork, rp.2)
      gen_spiral c density complexity line_width symmetry actual_density k (sym + 1) rart.1 rart.2

/-- The harmonic loop of `_generate_wave`: sum of sines over frequencies
`1..int(complexity)`; with organic factor each harmonic consumes a phase
draw. -/
def wave_y (c : MathCtx) (t amp_base : ℚ) (wave_idx : ℕ) :
    ℕ → ℕ → ℚ → Rng → ℚ × Rng
  | 0, _, y, g => (y, g)
  | k + 1, freq, y, g =>
      let amplitude := amp_base / (freq : ℚ)
      let rp :=
        if c.organic_factor > 0 then
          let rf := g.next
          ((wave_idx : ℚ) + rf.1 * c.organic_factor, rf.2)
        else ((wave_idx : ℚ), g)
      let y2 := y + amplitude * c.env.sinF (2 * c.env.piV * freq * t + rp.1)
      wave_y c t amp_base wave_idx k (freq + 1) y2 rp.2

/-- The sample loop of `_generate_wave`. -/
def wave_points (c : MathCtx) (density : ℚ) (num_freqs : ℕ) (amp_base y_offset : ℚ)
    (wave_idx : ℕ) : ℕ → ℕ → Rng → List (ℚ × ℚ) × Rng
  | 0, _, g => ([], g)
  | k + 1, i, g =>
      let t := (i : ℚ) / density
      let x := t * (c.width : ℚ)
      let ry := wave_y c t amp_base wave_idx num_freqs 1 y_offset g
      let rj :=
        if c.organic_factor > 0 then
          let jitter := 3 * c.organic_factor
          let ux := pyUniform (-jitter) jitter ry.2
          let uy := pyUniform (-jitter) jitter ux.2
          (x + ux.1, ry.1 + uy.1, uy.2)
        else (x, ry.1, ry.2)
      let res := wave_points c density num_freqs amp_base y_offset wave_idx k (i + 1) rj.2.2
      ((rj.1, rj.2.1) :: res.1, res.2)

/-- The wave loop of `_generate_wave` (`num_waves = symmetry`). -/
def gen_wave (c : MathCtx) (density complexity : ℚ) (line_width : ℚ)
    (num_waves : ℤ) (actual_density : ℕ) :
    ℕ → ℕ → ArtworkData → Rng → Option (ArtworkData × Rng)
  | 0, _, artwork, g => some (artwork, g)
  | k + 1, wave_idx, artwork, g => do
      let y_offset := ((artwork.height : ℚ) / ((num_waves : ℚ) + 1)) * ((wave_idx : ℚ) + 1)
      let ro :=
        if c.organic_factor > 0 then
          let u := pyUniform (-10) 10 g
          (y_offset + u.1 * c.organic_factor, u.2)
        else (y_offset, g)
      let amp_base := ((artwork.height : ℚ) / ((num_waves : ℚ) + 1)) * (3/10)
      let rp :=
        wave_points c density (ratTrunc complexity).toNat amp_base ro.1 wave_idx
          actual_density 0 ro.2
      let rart ←
        if 1 < rp.1.length then do
          let rc := get_color_for_element c wave_idx num_waves rp.2
          let path_color ← rc.1
          pure ({ artwork with paths := artwork.paths ++
            [{ points := rp.1, color := path_color,
               width := line_width, closed := false }] }, rc.2)
        else pure (artwork, rp.2)
      gen_wave c density complexity line_width num_waves actual_density k (wave_idx + 1) rart.1 rart.2

/-- The sample loop of `_generate_lissajous`. -/
def liss_points (c : MathCtx) (density a b delta cx cy scale_x scale_y : ℚ) :
    ℕ → ℕ → Rng → List (ℚ × ℚ) × Rng
  | 0, _, g => ([], g)
  | k + 1, i, g =>
      let t := ((i : ℚ) / density) * 2 * c.env.piV
      let x := cx + scale_x * c.env.sinF (a * t + delta)
      let y := cy + scale_y * c.env.sinF (b * t)
      let rj :=
        if c.organic_factor > 0 then
          let jitter := 5 * c.organic_factor
          let ux := pyUniform (-jitter) jitter g
          let uy := pyUniform (-jitter) jitter ux.2
          (x + ux.1, y + uy.1, uy.2)
        else (x, y, g)
      let res := liss_points c density a b delta cx cy scale_x scale_y k (i + 1) rj.2.2
      ((rj.1, rj.2.1) :: res.1, res.2)

/-- The `if len(points) > 1` block at the end of one `_generate_lissajous`
loop iteration: color the curve and append the open path. -/
def liss_step (c : MathCtx) (line_width : ℚ) (sym : ℕ) (symmetry : ℤ)
    (artwork : ArtworkData) (pts : List (ℚ × ℚ)) (g : Rng) :
    Option (ArtworkData × Rng) :=
  if 1 < pts.length then do
    let rc := get_color_for_element c sym symmetry g
    let path_color ← rc.1
    pure ({ artwork with paths := artwork.paths ++
      [{ points := pts, color := path_color,
         width := line_width, closed := false }] }, rc.2)
  else pure (artwork, g)

/-- The curve loop of `_generate_lissajous`; every appended path carries
`closed := false` (the source comment marks the regression fix). -/
def gen_lissajous (c : MathCtx) (density complexity : ℚ) (line_width : ℚ)
    (symmetry : ℤ) (actual_density : ℕ) :
    ℕ → ℕ → ArtworkData → Rng → Option (ArtworkData × Rng)
  | 0, _, artwork, g => some (artwork, g)
  | k + 1, sym, artwork, g => do
      let cx : ℚ := (artwork.width : ℚ) / 2
      let cy : ℚ := (artwork.height : ℚ) / 2
      let scale_x : ℚ := (artwork.width : ℚ) * (2/5)
      let scale_y : ℚ := (artwork.height : ℚ) * (2/5)
      let a : ℚ := 1 + (sym : ℚ) * (1/2)
      let b : ℚ := complexity
      let delta : ℚ := (c.env.piV / 4) * (sym : ℚ)
      let rabd :=
        if c.organic_factor > 0 then
          let u1 := pyUniform (-(1/10)) (1/10) g
          let u2 := pyUniform (-(1/10)) (1/10) u1.2
          let u3 := pyUniform (-(1/10)) (1/10) u2.2
          (a + u1.1 * c.organic_factor, b + u2.1 * c.organic_factor,
           delta + u3.1 * c.organic_factor, u3.2)
        else (a, b, delta, g)
      let rp :=
        liss_points c density rabd.1 rabd.2.1 rabd.2.2.1 cx cy scale_x scale_y
          actual_density 0 rabd.2.2.2
      let rart ← liss_step c line_width sym symmetry artwork rp.1 rp.2
      gen_lissajous c density complexity line_width symmetry actual_density k (sym + 1) rart.1 rart.2

/-- The child loop `for i in range(num_branches)` of `draw_branch`
(`_generate_fractal_tree`), parameterized by the recursive call `f`. -/
def branch_loop (f : ℚ → ArtworkData → Rng → Option (ArtworkData × Rng))
    (angle angle_spread : ℚ) (num_branches : ℕ) :
    ℕ → ℕ → ArtworkData → Rng → Option (ArtworkData × Rng)
  | 0, _, artwork, g => some (artwork, g)
  | k + 1, i, artwork, g => do
      let branch_angle := angle + ((i : ℚ) - ((num_branches : ℚ) - 1) / 2) * angle_spread
      let rb ← f branch_angle artwork g
      branch_loop f angle angle_spread num_branches k (i + 1) rb.1 rb.2

/-- The recursive closure `draw_branch` of `_generate_fractal_tree`,
written with an explicit fuel argument; the recursion itself returns at
`depth > max_depth` or `length < 2`, consumes the completeness draw, emits
one two-point path, and recurses into 2 (or, with a high organic factor,
sometimes 3) children.  `none` on fuel exhaustion or a colour raise. -/
def draw_branch (c : MathCtx) (max_depth : ℤ) (line_width : ℚ) :
    ℕ → ℚ → ℚ → ℚ → ℚ → ℤ → ArtworkData → Rng → Option (ArtworkData × Rng)
  | 0, _, _, _, _, _, _, _ => none
  | fuel + 1, x, y, angle, length, depth, artwork, g =>
      if depth > max_depth ∨ length < 2 then some (artwork, g)
      else
        let rf := g.next
        if rf.1 > c.completeness then some (artwork, rf.2)
        else do
          let ra :=
            if c.organic_factor > 0 then
              let u := pyUniform (-(1/10)) (1/10) rf.2
              (angle + u.1 * c.organic_factor, u.2)
            else (angle, rf.2)
          let end_x := x + length * c.env.cosF ra.1
          let end_y := y + length * c.env.sinF ra.1
          let rc := get_color_for_element c depth.toNat (max_depth + 1) ra.2
          let branch_color ← rc.1
          let artwork2 := { artwork with paths := artwork.paths ++
            [{ points := [(x, y), (end_x, end_y)], color := branch_color,
               width := line_width * (1 - (depth : ℚ) / ((max_depth : ℚ) + 1)),
               closed := false }] }
          let rl :=
            if c.organic_factor > 0 then
              let u := pyUniform (-(1/10)) (1/10) rc.2
              (7/10 + u.1 * c.organic_factor, u.2)
            else ((7/10 : ℚ), rc.2)
          let new_length := length * rl.1
          let rsp :=
            if c.organic_factor > 0 then
              let u := pyUniform (-(1/5)) (1/5) rl.2
              (c.env.piV / 6 + u.1 * c.organic_factor, u.2)
            else (c.env.piV / 6, rl.2)
          let rnb :=
            if c.organic_factor > 1/2 then
              let ri := pyChoiceIdx 4 rsp.2
              (List.getD [2, 2, 2, 3] ri.1 2, ri.2)
            else (2, rsp.2)
          branch_loop
            (fun ang art g => draw_branch c max_depth line_width fuel end_x end_y ang
              new_length (depth + 1) art g)
            ra.1 rsp.1 rnb.1 rnb.1 0 artwork2 rnb.2

/-- The symmetry loop of `_generate_fractal_tree`. -/
def gen_fractal_tree (c : MathCtx) (line_width : ℚ) (symmetry max_depth : ℤ)
    (fuel : ℕ) : ℕ → ℕ → ArtworkData → Rng → Option (ArtworkData × Rng)
  | 0, _, artwork, g => some (artwork, g)
  | k + 1, sym, artwork, g => do
      let angle_offset := 2 * c.env.piV * (sym : ℚ) / (symmetry : ℚ)
      let start_x : ℚ := (artwork.width : ℚ) / 2
      let start_y : ℚ := (artwork.height : ℚ) * (4/5)
      let start_angle := -(c.env.piV / 2) + angle_offset
      let branch_length : ℚ := (min artwork.width artwork.height : ℤ) * (3/20)
      let ro :=
        if c.organic_factor > 0 then
          let u1 := pyUniform (-20) 20 g
          let u2 := pyUniform (-(1/5)) (1/5) u1.2
          (start_x + u1.1 * c.organic_factor, start_angle + u2.1 * c.organic_factor, u2.2)
        else (start_x, start_angle, g)
      let rd ←
        draw_branch c max_depth line_width fuel ro.1 start_y ro.2.1
          branch_length 0 artwork ro.2.2
      gen_fractal_tree c line_width symmetry max_depth fuel k (sym + 1) rd.1 rd.2

/-- The inner overlap-shrink loop of `_generate_circle_pack`: walk the
accepted circles, shrinking the candidate radius at each conflict; the
(dead, see C4) rejection branch is kept exactly as in the source. -/
def overlap_shrink (c : MathCtx) (x y overlap_tolerance min_radius : ℚ) :
    List (ℚ × ℚ × ℚ) → ℚ → Bool × ℚ
  | [], radius => (true, radius)
  | (cx, cy, cr) :: rest, radius =>
      let dist := c.env.sqrtF ((x - cx) ^ 2 + (y - cy) ^ 2)
      if dist < radius + cr + overlap_tolerance then
        let radius := max min_radius (dist - cr - overlap_tolerance)
        if radius < min_radius then (false, radius)
        else overlap_shrink c x y overlap_tolerance min_radius rest radius
      else overlap_shrink c x y overlap_tolerance min_radius rest radius

/-- The rejection-sampling attempt loop of `_generate_circle_pack`
(up to 50 attempts per circle). -/
def pack_attempt (c : MathCtx) (complexity line_width max_radius min_radius : ℚ)
    (circles : List (ℚ × ℚ × ℚ)) : ℕ → Rng → Option (ℚ × ℚ × ℚ) × Rng
  | 0, g => (none, g)
  | a + 1, g =>
      let rx := pyUniform 0 (c.width : ℚ) g
      let ry := pyUniform 0 (c.height : ℚ) rx.2
      let rf := ry.2.next
      let radius0 := max_radius / (1 + complexity * rf.1)
      let rr :=
        if c.organic_factor > 0 then
          let u := pyUniform (-(1/5)) (1/5) rf.2
          (radius0 * (1 + u.1 * c.organic_factor), u.2)
        else (radius0, rf.2)
      let overlap_tolerance := line_width * (1 - c.organic_factor * (1/2))
      let vr := overlap_shrink c rx.1 ry.1 overlap_tolerance min_radius circles rr.1
      if vr.1 ∧ vr.2 ≥ min_radius then (some (rx.1, ry.1, vr.2), rr.2)
      else pack_attempt c complexity line_width max_radius min_radius circles a rr.2

/-- The packing loop of `_generate_circle_pack`: one placement attempt
budget per requested circle, stopping early when a budget is exhausted. -/
def pack_circles (c : MathCtx) (complexity line_width max_radius min_radius : ℚ) :
    ℕ → List (ℚ × ℚ × ℚ) → Rng → List (ℚ × ℚ × ℚ) × Rng
  | 0, circles, g => (circles, g)
  | k + 1, circles, g =>
      let ra := pack_attempt c complexity line_width max_radius min_radius circles 50 g
      match ra.1 with
      | some placed => pack_circles c complexity line_width max_radius min_radius k
          (circles ++ [placed]) ra.2
      | none => (circles, ra.2)

/-- The per-replica emission loop of `_generate_circle_pack`: rotate each
accepted circle about the canvas centre and colour it by its index. -/
def pack_emit_one (c : MathCtx) (line_width cos_a sin_a : ℚ) (total : ℤ) :
    List (ℚ × ℚ × ℚ) → ℕ → ArtworkData → Rng → Option (ArtworkData × Rng)
  | [], _, artwork, g => some (artwork, g)
  | (x, y, radius) :: rest, idx, artwork, g => do
      let cx_center : ℚ := (c.width : ℚ) / 2
      let cy_center : ℚ := (c.height : ℚ) / 2
      let dx := x - cx_center
      let dy := y - cy_center
      let rotated_x := cx_center + dx * cos_a - dy * sin_a
      let rotated_y := cy_center + dx * sin_a + dy * cos_a
      let rc := get_color_for_element c idx total g
      let circle_color ← rc.1
      let artwork2 := { artwork with circles := artwork.circles ++
        [{ center := (rotated_x, rotated_y), radius := radius,
           color := circle_color, fill := false, stroke_width := line_width }] }
      pack_emit_one c line_width cos_a sin_a total rest (idx + 1) artwork2 rc.2

/-- The symmetry-replication loop of `_generate_circle_pack`. -/
def pack_emit (c : MathCtx) (line_width : ℚ) (symmetry : ℤ)
    (circles : List (ℚ × ℚ × ℚ)) :
    ℕ → ℕ → ArtworkData → Rng → Option (ArtworkData × Rng)
  | 0, _, artwork, g => some (artwork, g)
  | k + 1, sym, artwork, g => do
      let angle_offset := 2 * c.env.piV * (sym : ℚ) / (symmetry : ℚ)
      let ro :=
        if c.organic_factor > 0 then
          let u := pyUniform (-(1/20)) (1/20) g
          (angle_offset + u.1 * c.organic_factor, u.2)
        else (angle_offset, g)
      let re ←
        pack_emit_one c line_width (c.env.cosF ro.1) (c.env.sinF ro.1)
          (circles.length : ℤ) circles 0 artwork ro.2
      pack_emit c line_width symmetry circles k (sym + 1) re.1 re.2

/-- `_generate_circle_pack`: pack, then replicate under symmetry. -/
def gen_circle_pack (c : MathCtx) (complexity line_width : ℚ) (symmetry : ℤ)
    (actual_density : ℕ) (artwork : ArtworkData) (g : Rng) :
    Option (ArtworkData × Rng) :=
  let max_radius : ℚ := (min artwork.width artwork.height : ℤ) * (1/10)
  let min_radius : ℚ := max_radius * (1/10)
  let rp :=
    pack_circles c complexity line_width max_radius min_radius actual_density [] g
  pack_emit c line_width symmetry rp.1 symmetry.toNat 0 artwork rp.2

/-- `MathematicalPatternsGenerator.generate`: extract the raw parameters
with `params.get` defaults (the source performs no validation pass), build
the context and background, and dispatch on `pattern_type`; a value outside
the five known kinds matches no branch and the bare background artwork is
returned. -/
def mathGenerate (env : MathEnv) (width height : ℤ) (params : RawMap)
    (g : Rng) : Option (ArtworkData × Rng) := do
  let pattern_type := (lookupKey params "pattern_type").getD (.vStr "spiral")
  let density ← Value.toNum ((lookupKey params "density").getD (.vInt 100))
  let complexity ← Value.toNum ((lookupKey params "complexity").getD (.vFloat (3/2)))
  let symmetry ← Value.toIndex ((lookupKey params "symmetry").getD (.vInt 1))
  let line_width ← Value.toNum ((lookupKey params "line_width").getD (.vFloat 2))
  let color := ((lookupKey params "color").getD (.vStr "#2E86AB")).asStr
  let color_scheme := ((lookupKey params "color_scheme").getD (.vStr "gradient")).asStr
  let color_variation ← Value.toNum ((lookupKey params "color_variation").getD (.vFloat 30))
  let organic_factor ← Value.toNum ((lookupKey params "organic_factor").getD (.vFloat 0))
  let completeness ← Value.toNum ((lookupKey params "completeness").getD (.vFloat 1))
  let bg_color := ((lookupKey params "background_color").getD (.vStr "#FFFFFF")).asStr
  let c : MathCtx :=
    { env := env, width := width, height := height, current_color := color,
      color_scheme := color_scheme, color_variation := color_variation / 100,
      organic_factor := organic_factor, completeness := completeness }
  let bgc ← hex_to_rgb bg_color
  let artwork : ArtworkData :=
    { width := width, height := height, background_color := bgc }
  let actual_density := (ratTrunc (density * completeness)).toNat
  if pattern_type = Value.vStr "spiral" then
    gen_spiral c density complexity line_width symmetry actual_density
      symmetry.toNat 0 artwork g
  else if pattern_type = Value.vStr "wave" then
    gen_wave c density complexity line_width symmetry actual_density
      symmetry.toNat 0 artwork g
  else if pattern_type = Value.vStr "lissajous" then
    gen_lissajous c density complexity line_width symmetry actual_density
      symmetry.toNat 0 artwork g
  else if pattern_type = Value.vStr "fractal_tree" then
    let max_depth := min (ratTrunc (complexity * 3)) 12
    gen_fractal_tree c line_width symmetry max_depth ((max_depth + 2).toNat + 1)
      symmetry.toNat 0 artwork g
  else if pattern_type = Value.vStr "circle_pack" then
    gen_circle_pack c complexity line_width symmetry actual_density artwork g
  else
    some (artwork, g)

/-- The shape filter of `BaseGenerator.to_svg`: a path with fewer than two
points is skipped silently; the count of path shapes actually written. -/
def svgPathShapeCount (artwork : ArtworkData) : ℕ :=
  (artwork.paths.filter fun p => 2 ≤ p.points.length).length

/-- Exact rational square root on perfect squares (numerator and
denominator both squares); elsewhere an approximation, as a concrete
instance of the float `math.sqrt`. -/
def ratSqrt (q : ℚ) : ℚ := (Nat.sqrt q.num.toNat : ℚ) / (Nat.sqrt q.den : ℚ)

/-- A concrete math environment for witnesses whose claims do not depend
on trigonometric identities: a rational `pi`, constant-zero `cos`/`sin`,
exact-on-squares `sqrt`. -/
def envTriv : MathEnv := ⟨355/113, fun _ => 0, fun _ => 0, ratSqrt⟩

/-- A concrete environment for the circle-packing run: the only angle the
run evaluates trigonometric functions at is `0`, where `cos 0 = 1` and
`sin 0 = 0` are the true values. -/
def envPack : MathEnv := ⟨355/113, fun _ => 1, fun _ => 0, ratSqrt⟩

/-- An ambient random stream that repeats one value. -/
def constRng (q : ℚ) : Rng := ⟨fun _ => q, 0⟩

/-- An ambient random stream reading from a finite list (0 afterwards). -/
def listRng (l : List ℚ) : Rng := ⟨fun n => l.getD n 0, 0⟩

/-- Well-formedness of one parameter definition: declared numeric bounds
bracket the declared default (true of every schema in the repository). -/
def PDefWF : PDef → Prop
  | .pInt d lo hi => (∀ a ∈ lo, a ≤ d) ∧ (∀ b ∈ hi, d ≤ b)
  | .pFloat d lo hi => (∀ a ∈ lo, a ≤ d) ∧ (∀ b ∈ hi, d ≤ b)
  | _ => True

/-- The raw value supplied for a numeric parameter, when present, is one
Python's `int()` / `float()` coercion accepts without raising. -/
def Coercible (params : RawMap) : String × PDef → Prop
  | (name, .pInt _ _ _) => ∀ v ∈ lookupKey params name, (pyToInt v).isSome
  | (name, .pFloat _ _ _) => ∀ v ∈ lookupKey params name, (pyToFloat v).isSome
  | _ => True

/-- The defaulting/clamping/choice-fallback contract for one validated
entry: the key is the declared name; a missing raw value yields the
default; an int/float value lies within the declared bounds; a choice
value outside the declared choices yields the default. -/
def ValidatedOK (params : RawMap) : String × PDef → String × Value → Prop
  | (name, .pInt d lo hi), out =>
      out.1 = name ∧ ∃ n, out.2 = .vInt n ∧ (∀ a ∈ lo, a ≤ n) ∧ (∀ b ∈ hi, n ≤ b) ∧
        (lookupKey params name = none → n = d)
  | (name, .pFloat d lo hi), out =>
      out.1 = name ∧ ∃ q, out.2 = .vFloat q ∧ (∀ a ∈ lo, a ≤ q) ∧ (∀ b ∈ hi, q ≤ b) ∧
        (lookupKey params name = none → q = d)
  | (name, .pChoice d choices), out =>
      out.1 = name ∧ (lookupKey params name = none → out.2 = .vStr d) ∧
        (∀ v ∈ lookupKey params name, v ∉ choices.map Value.vStr → out.2 = .vStr d)
  | (name, .pBool d), out =>
      out.1 = name ∧ (lookupKey params name = none → out.2 = .vBool d)
  | (name, .pColor d), out =>
      out.1 = name ∧ (lookupKey params name = none → out.2 = .vStr d)

/-- The clamp performed by `validate_parameters` on numeric values:
raise to `min` when declared, lower to `max` when declared. -/
def clampOpt {α : Type} [LinearOrder α] (n : α) (lo hi : Option α) : α :=
  let n := match lo with | some a => max n a | none => n
  match hi with | some b => min n b | none => n

theorem clampOpt_bounds {α : Type} [LinearOrder α] (n : α) (lo hi : Option α)
    (hord : ∀ a ∈ lo, ∀ b ∈ hi, a ≤ b) :
    (∀ a ∈ lo, a ≤ clampOpt n lo hi) ∧ (∀ b ∈ hi, clampOpt n lo hi ≤ b) := by
  cases lo with
  | none => cases hi with
    | none => simp [clampOpt]
    | some b => simp [clampOpt]
  | some a => cases hi with
    | none => simp [clampOpt]
    | some b =>
        refine ⟨?_, ?_⟩
        · intro x hx
          simp at hx
          subst hx
          exact le_min (le_max_right _ _) (hord _ rfl _ rfl)
        · intro x hx
          simp at hx
          subst hx
          exact min_le_right _ _

theorem clampOpt_of_bracket {α : Type} [LinearOrder α] (d : α) (lo hi : Option α)
    (hlo : ∀ a ∈ lo, a ≤ d) (hhi : ∀ b ∈ hi, d ≤ b) : clampOpt d lo hi = d := by
  cases lo with
  | none => cases hi with
    | none => rfl
    | some b => simp [clampOpt, min_eq_left (hhi b rfl)]
  | some a => cases hi with
    | none => simp [clampOpt, max_eq_left (hlo a rfl)]
    | some b => simp [clampOpt, max_eq_left (hlo a rfl), min_eq_left (hhi b rfl)]

theorem validateOne_int_eq (params : RawMap) (name : String) (d : ℤ) (lo hi : Option ℤ)
    (n0 : ℤ) (h : pyToInt ((lookupKey params name).getD (Value.vInt d)) = some n0) :
    validateOne params (name, .pInt d lo hi) = some (name, .vInt (clampOpt n0 lo hi)) := by
  cases lo <;> cases hi <;> simp [validateOne, h, clampOpt]

theorem validateOne_float_eq (params : RawMap) (name : String) (d : ℚ) (lo hi : Option ℚ)
    (q0 : ℚ) (h : pyToFloat ((lookupKey params name).getD (Value.vFloat d)) = some q0) :
    validateOne params (name, .pFloat d lo hi) = some (name, .vFloat (clampOpt q0 lo hi)) := by
  cases lo <;> cases hi <;> simp [validateOne, h, clampOpt]

/-- One validated entry satisfies the defaulting/clamping/fallback
contract, provided its definition is well-formed and its raw value (when
numeric) coerces. -/
theorem validateOne_ok (params : RawMap) (e : String × PDef)
    (hwf : PDefWF e.2) (hco : Coercible params e) :
    ∃ v, validateOne params e = some v ∧ ValidatedOK params e v := by
  obtain ⟨name, d⟩ := e
  cases d with
  | pInt dflt lo hi =>
      obtain ⟨hlo, hhi⟩ := hwf
      have hord : ∀ a ∈ lo, ∀ b ∈ hi, a ≤ b := fun a ha b hb =>
        le_trans (hlo a ha) (hhi b hb)
      cases hlk : lookupKey params name with
      | none =>
          refine ⟨_, validateOne_int_eq params name dflt lo hi dflt (by simp [hlk, pyToInt]),
            rfl, _, rfl, (clampOpt_bounds _ _ _ hord).1, (clampOpt_bounds _ _ _ hord).2,
            fun _ => clampOpt_of_bracket _ _ _ hlo hhi⟩
      | some v =>
          obtain ⟨n0, hn0⟩ := Option.isSome_iff_exists.mp (hco v (by simp [hlk]))
          refine ⟨_, validateOne_int_eq params name dflt lo hi n0 (by simp [hlk, hn0]),
            rfl, _, rfl, (clampOpt_bounds _ _ _ hord).1, (clampOpt_bounds _ _ _ hord).2,
            by simp [hlk]⟩
  | pFloat dflt lo hi =>
      obtain ⟨hlo, hhi⟩ := hwf
      have hord : ∀ a ∈ lo, ∀ b ∈ hi, a ≤ b := fun a ha b hb =>
        le_trans (hlo a ha) (hhi b hb)
      cases hlk : lookupKey params name with
      | none =>
          refine ⟨_, validateOne_float_eq params name dflt lo hi dflt (by simp [hlk, pyToFloat]),
            rfl, _, rfl, (clampOpt_bounds _ _ _ hord).1, (clampOpt_bounds _ _ _ hord).2,
            fun _ => clampOpt_of_bracket _ _ _ hlo hhi⟩
      | some v =>
          obtain ⟨q0, hq0⟩ := Option.isSome_iff_exists.mp (hco v (by simp [hlk]))
          refine ⟨_, validateOne_float_eq params name dflt lo hi q0 (by simp [hlk, hq0]),
            rfl, _, rfl, (clampOpt_bounds _ _ _ hord).1, (clampOpt_bounds _ _ _ hord).2,
            by simp [hlk]⟩
  | pChoice dflt choices =>
      refine ⟨_, rfl, rfl, ?_, ?_⟩
      · intro hlk
        simp [validateOne, hlk]
      · intro v hv hnot
        simp [Option.mem_def] at hv
        simp [validateOne, hv]
        intro c hc hvc
        exact absurd (hvc ▸ List.mem_map_of_mem Value.vStr hc) hnot
  | pBool dflt =>
      refine ⟨_, rfl, rfl, ?_⟩
      intro hlk
      simp [validateOne, hlk, pyToBool]
  | pColor dflt =>
      refine ⟨_, rfl, rfl, ?_⟩
      intro hlk
      simp [validateOne, hlk]

/-- `C2`: merging a base scene with an overlay scene under layer mode
preserves the base's background colour, concatenates the path lists (base
first, so the first `len(A.paths)` entries are `A.paths` in order) and the
circle lists.  The embedding is pure, so the merge constructs a fresh
`ArtworkData` and the inputs `A` and `B` are untouched by construction. -/
theorem C2_mergeScenes_spec (w h : ℤ) (A B : ArtworkData) :
    (mergeScenes w h A B).background_color = A.background_color ∧
    (mergeScenes w h A B).paths = A.paths ++ B.paths ∧
    (mergeScenes w h A B).paths.length = A.paths.length + B.paths.length ∧
    (mergeScenes w h A B).paths.take A.paths.length = A.paths ∧
    (mergeScenes w h A B).paths.drop A.paths.length = B.paths ∧
    (mergeScenes w h A B).circles = A.circles ++ B.circles := by
  refine ⟨rfl, rfl, ?_, ?_, ?_, rfl⟩
  · simp [mergeScenes]
  · simp [mergeScenes, List.take_left]
  · simp [mergeScenes, List.drop_left]

/-- `C3` (counterexample): the claim quantifies over every raw parameter
map, but `validate_parameters` coerces with Python's `int()`, which raises
on the string `"abc"` supplied for the int parameter `num_walks` — the
call does not return a validated map. -/
theorem C3_cex_unparsable_string_raises :
    validate_parameters [("num_walks", Value.vStr "abc")] randomWalkSchema = none := by
  rfl

/-- `C3` (amended): for raw maps whose values for int/float parameters,
when present, are accepted by Python's numeric coercion, and for schemas
whose declared bounds bracket their defaults, `validate_parameters`
returns a map in which every declared parameter is the default when
missing, is clamped into the declared `[min, max]` for int/float
parameters, and falls back to the default for an undeclared choice
value. -/
theorem C3_amended_validate_defaults_clamps (schema : List (String × PDef))
    (params : RawMap) (hwf : ∀ e ∈ schema, PDefWF e.2)
    (hco : ∀ e ∈ schema, Coercible params e) :
    ∃ out, validate_parameters params schema = some out ∧
      List.Forall₂ (ValidatedOK params) schema out := by
  induction schema with
  | nil => exact ⟨[], rfl, List.Forall₂.nil⟩
  | cons e rest ih =>
      obtain ⟨v, hv, hvok⟩ :=
        validateOne_ok params e (hwf e (by simp)) (hco e (by simp))
      obtain ⟨out, hout, houtok⟩ :=
        ih (fun x hx => hwf x (by simp [hx])) (fun x hx => hco x (by simp [hx]))
      exact ⟨v :: out, by simp [validate_parameters, hv, hout], List.Forall₂.cons hvok houtok⟩

/-- Witness for `C3`: the amended theorem applied to the random-walk
schema and a concrete raw map with an out-of-range `num_walks` and an
undeclared `color_mode`. -/
theorem C3_witness :
    ∃ out, validate_parameters
        [("num_walks", Value.vInt 500), ("color_mode", Value.vStr "neon")]
        randomWalkSchema = some out ∧
      List.Forall₂
        (ValidatedOK [("num_walks", Value.vInt 500), ("color_mode", Value.vStr "neon")])
        randomWalkSchema out :=
  C3_amended_validate_defaults_clamps randomWalkSchema _
    (by intro e he; fin_cases he <;> norm_num [PDefWF])
    (by intro e he; fin_cases he <;> simp [Coercible, lookupKey, pyToInt])

theorem Rng.next_stream (g : Rng) : (g.next.2).stream = g.stream := rfl

theorem inRange_of_stream_eq {g g' : Rng} (h : g'.stream = g.stream)
    (hg : g.InRange) : g'.InRange := by
  intro n
  rw [h]
  exact hg n

theorem mkSeeded_inRange (seed : ℤ) : (mkSeeded seed).InRange := by
  intro n
  have hlt : ∀ k, lcgIterate seed.natAbs k < 2 ^ 31 := by
    intro k
    cases k with
    | zero => exact Nat.mod_lt _ (by norm_num)
    | succ k => exact Nat.mod_lt _ (by norm_num)
  simp only [mkSeeded]
  constructor
  · positivity
  · rw [div_le_one (by positivity)]
    exact_mod_cast (hlt (n + 1)).le

theorem pyUniform_mem {a b : ℚ} (hab : a ≤ b) (g : Rng) (hg : g.InRange) :
    a ≤ (pyUniform a b g).1 ∧ (pyUniform a b g).1 ≤ b := by
  obtain ⟨h0, h1⟩ := hg g.pos
  constructor
  · show a ≤ a + (b - a) * g.stream g.pos
    nlinarith
  · show a + (b - a) * g.stream g.pos ≤ b
    nlinarith

theorem qmod_mem (x : ℚ) {m : ℚ} (hm : 0 < m) : 0 ≤ qmod x m ∧ qmod x m < m := by
  have hfr : qmod x m = m * Int.fract (x / m) := by
    unfold qmod Int.fract
    field_simp
  constructor
  · rw [hfr]
    exact mul_nonneg hm.le (Int.fract_nonneg _)
  · rw [hfr]
    calc m * Int.fract (x / m) < m * 1 :=
          (mul_lt_mul_left hm).mpr (Int.fract_lt_one _)
    _ = m := mul_one m

theorem walk_steps_stream (c : WalkCtx) :
    ∀ (n : ℕ) (x y ang : ℚ) (g : Rng),
      ((walk_steps c n x y ang g).2).stream = g.stream := by
  intro n
  induction n with
  | zero => intro x y ang g; rfl
  | succ n ih =>
      intro x y ang g
      simp only [walk_steps, pyUniform, Rng.next]
      split
      · rw [ih]
      · rfl

theorem get_start_position_stream (width height : ℤ) (mode : String) (g : Rng) :
    ((get_start_position width height mode g).2).stream = g.stream := by
  simp only [get_start_position, pyUniform, pyChoiceIdx, Rng.next]
  split_ifs <;> rfl

theorem generate_walk_stream (c : WalkCtx) (mode : String) (g : Rng) :
    ((generate_walk c mode g).2).stream = g.stream := by
  simp only [generate_walk]
  rcases hs : get_start_position c.width c.height mode g with ⟨⟨x, y⟩, g1⟩
  have h1 : g1.stream = g.stream := by
    have := get_start_position_stream c.width c.height mode g
    rw [hs] at this
    exact this
  rcases hu : pyUniform 0 (2 * c.env.piV) g1 with ⟨ang, g2⟩
  have h2 : g2.stream = g1.stream := by
    have : ((pyUniform 0 (2 * c.env.piV) g1).2).stream = g1.stream := rfl
    rw [hu] at this
    exact this
  rcases hw : walk_steps c c.steps_per_walk x y ang g2 with ⟨pts, g3⟩
  have h3 : g3.stream = g2.stream := by
    have := walk_steps_stream c c.steps_per_walk x y ang g2
    rw [hw] at this
    exact this
  simp only [hs, hu, hw]
  rw [h3, h2, h1]

theorem get_walk_color_stream (index : ℕ) (num_walks : ℤ) (cm bc : String) (g : Rng) :
    ((get_walk_color index num_walks cm bc g).2).stream = g.stream := by
  simp only [get_walk_color, pyRandInt, Rng.next]
  split_ifs <;> rfl

theorem handle_boundary_stop (x y : ℚ) (w h : ℤ) :
    handle_boundary x y w h "stop" =
      if x < 0 ∨ x > (w : ℚ) ∨ y < 0 ∨ y > (h : ℚ) then (x, y, false)
      else (x, y, true) := by
  unfold handle_boundary
  rw [if_neg (by decide), if_pos rfl]

theorem handle_boundary_wrap (x y : ℚ) (w h : ℤ) :
    handle_boundary x y w h "wrap" = (qmod x w, qmod y h, true) := by
  unfold handle_boundary
  rw [if_neg (by decide), if_neg (by decide), if_neg (by decide), if_pos rfl]

theorem get_start_position_mem (width height : ℤ) (hw : 0 ≤ width) (hh : 0 ≤ height)
    (mode : String) (g : Rng) (hg : g.InRange) :
    0 ≤ ((get_start_position width height mode g).1).1 ∧
    ((get_start_position width height mode g).1).1 ≤ (width : ℚ) ∧
    0 ≤ ((get_start_position width height mode g).1).2 ∧
    ((get_start_position width height mode g).1).2 ≤ (height : ℚ) := by
  have hwq : (0 : ℚ) ≤ (width : ℚ) := by exact_mod_cast hw
  have hhq : (0 : ℚ) ≤ (height : ℚ) := by exact_mod_cast hh
  have hnext : ∀ g0 : Rng, g0.InRange → (g0.next.2).InRange := fun g0 h =>
    inRange_of_stream_eq rfl h
  simp only [get_start_position]
  split_ifs with h1 h2 h3 h4 h5 h6 h7
  · exact ⟨by linarith, by linarith, by linarith, by linarith⟩
  · -- random: two uniform draws
    obtain ⟨ha, hb⟩ := pyUniform_mem hwq g hg
    obtain ⟨hc, hd⟩ := pyUniform_mem hhq (pyUniform 0 (width : ℚ) g).2
      (inRange_of_stream_eq rfl hg)
    exact ⟨ha, hb, hc, hd⟩
  · -- edges, top
    obtain ⟨ha, hb⟩ := pyUniform_mem hwq (pyChoiceIdx 4 g).2 (inRange_of_stream_eq rfl hg)
    exact ⟨ha, hb, le_refl 0, hhq⟩
  · -- edges, bottom
    obtain ⟨ha, hb⟩ := pyUniform_mem hwq (pyChoiceIdx 4 g).2 (inRange_of_stream_eq rfl hg)
    exact ⟨ha, hb, hhq, le_refl _⟩
  · -- edges, left
    obtain ⟨ha, hb⟩ := pyUniform_mem hhq (pyChoiceIdx 4 g).2 (inRange_of_stream_eq rfl hg)
    exact ⟨le_refl 0, hwq, ha, hb⟩
  · -- edges, right
    obtain ⟨ha, hb⟩ := pyUniform_mem hhq (pyChoiceIdx 4 g).2 (inRange_of_stream_eq rfl hg)
    exact ⟨hwq, le_refl _, ha, hb⟩
  · -- corners: whichever corner the draw picks is a canvas corner
    rcases hi : (pyChoiceIdx 4 g).1 with _ | _ | _ | _ | i <;>
      refine ⟨?_, ?_, ?_, ?_⟩ <;>
      (try simp [hi, List.getD]) <;>
      first
      | exact hw
      | exact hh
      | exact hwq
      | exact hhq
      | exact le_refl _
      | positivity
  · exact ⟨by linarith, by linarith, by linarith, by linarith⟩

/-- Every point the step loop emits is the adjusted point of a
`handle_boundary` call that allowed the walk to continue. -/
theorem walk_steps_points (c : WalkCtx) :
    ∀ (n : ℕ) (x y ang : ℚ) (g : Rng), ∀ q ∈ (walk_steps c n x y ang g).1,
      ∃ nx ny, (handle_boundary nx ny c.width c.height c.behavior).2.2 = true ∧
        q = ((handle_boundary nx ny c.width c.height c.behavior).1,
             (handle_boundary nx ny c.width c.height c.behavior).2.1) := by
  intro n
  induction n with
  | zero => intro x y ang g q hq; simp [walk_steps] at hq
  | succ n ih =>
      intro x y ang g q hq
      simp only [walk_steps] at hq
      split at hq
      · next h =>
          cases hq with
          | head => exact ⟨_, _, h, rfl⟩
          | tail _ hq => exact ih _ _ _ _ q hq
      · simp at hq

theorem handle_boundary_stop_bounds (nx ny : ℚ) (w h : ℤ)
    (hcont : (handle_boundary nx ny w h "stop").2.2 = true) :
    (handle_boundary nx ny w h "stop").1 = nx ∧
    (handle_boundary nx ny w h "stop").2.1 = ny ∧
    0 ≤ nx ∧ nx ≤ (w : ℚ) ∧ 0 ≤ ny ∧ ny ≤ (h : ℚ) := by
  rw [handle_boundary_stop] at hcont ⊢
  split_ifs at hcont ⊢ with hc
  push_neg at hc
  exact ⟨rfl, rfl, hc.1, hc.2.1, hc.2.2.1, hc.2.2.2⟩

theorem handle_boundary_wrap_bounds (nx ny : ℚ) (w h : ℤ)
    (hw : 0 < w) (hh : 0 < h) :
    0 ≤ (handle_boundary nx ny w h "wrap").1 ∧
    (handle_boundary nx ny w h "wrap").1 < (w : ℚ) ∧
    0 ≤ (handle_boundary nx ny w h "wrap").2.1 ∧
    (handle_boundary nx ny w h "wrap").2.1 < (h : ℚ) := by
  rw [handle_boundary_wrap]
  have h1 := qmod_mem nx (show (0:ℚ) < (w:ℚ) by exact_mod_cast hw)
  have h2 := qmod_mem ny (show (0:ℚ) < (h:ℚ) by exact_mod_cast hh)
  exact ⟨h1.1, h1.2, h2.1, h2.2⟩

/-- With the *stop* policy every point of a generated walk, the start
point included, lies in `[0,width] × [0,height]`. -/
theorem generate_walk_stop_mem (c : WalkCtx) (hbeh : c.behavior = "stop")
    (hw : 0 ≤ c.width) (hh : 0 ≤ c.height) (sm : String) (g : Rng) (hg : g.InRange) :
    ∀ q ∈ (generate_walk c sm g).1,
      0 ≤ q.1 ∧ q.1 ≤ (c.width : ℚ) ∧ 0 ≤ q.2 ∧ q.2 ≤ (c.height : ℚ) := by
  intro q hq
  simp only [generate_walk] at hq
  cases hq with
  | head => exact get_start_position_mem c.width c.height hw hh sm g hg
  | tail _ hq =>
    obtain ⟨nx, ny, hcont, hqe⟩ := walk_steps_points c _ _ _ _ _ q hq
    rw [hbeh] at hcont hqe
    obtain ⟨he1, he2, hb1, hb2, hb3, hb4⟩ := handle_boundary_stop_bounds nx ny _ _ hcont
    rw [hqe, he1, he2]
    exact ⟨hb1, hb2, hb3, hb4⟩

/-- With the *wrap* policy the start point lies in the closed canvas box
and every stepped point lies in the half-open box. -/
theorem generate_walk_wrap_mem (c : WalkCtx) (hbeh : c.behavior = "wrap")
    (hw : 0 < c.width) (hh : 0 < c.height) (sm : String) (g : Rng) (hg : g.InRange) :
    (∀ q ∈ (generate_walk c sm g).1,
      0 ≤ q.1 ∧ q.1 ≤ (c.width : ℚ) ∧ 0 ≤ q.2 ∧ q.2 ≤ (c.height : ℚ)) ∧
    (∀ q ∈ ((generate_walk c sm g).1).tail,
      0 ≤ q.1 ∧ q.1 < (c.width : ℚ) ∧ 0 ≤ q.2 ∧ q.2 < (c.height : ℚ)) := by
  have hsteps : ∀ q ∈ (walk_steps c c.steps_per_walk
      ((get_start_position c.width c.height sm g).1).1
      ((get_start_position c.width c.height sm g).1).2
      (pyUniform 0 (2 * c.env.piV) (get_start_position c.width c.height sm g).2).1
      (pyUniform 0 (2 * c.env.piV) (get_start_position c.width c.height sm g).2).2).1,
      0 ≤ q.1 ∧ q.1 < (c.width : ℚ) ∧ 0 ≤ q.2 ∧ q.2 < (c.height : ℚ) := by
    intro q hq
    obtain ⟨nx, ny, _, hqe⟩ := walk_steps_points c _ _ _ _ _ q hq
    rw [hbeh] at hqe
    obtain ⟨hb1, hb2, hb3, hb4⟩ := handle_boundary_wrap_bounds nx ny _ _ hw hh
    rw [hqe]
    exact ⟨hb1, hb2, hb3, hb4⟩
  constructor
  · intro q hq
    simp only [generate_walk] at hq
    cases hq with
    | head => exact get_start_position_mem c.width c.height hw.le hh.le sm g hg
    | tail _ hq =>
      obtain ⟨a1, a2, a3, a4⟩ := hsteps q hq
      exact ⟨a1, a2.le, a3, a4.le⟩
  · intro q hq
    simp only [generate_walk, List.tail_cons] at hq
    exact hsteps q hq

/-- The walk loop preserves any per-path property that every freshly
generated walk path satisfies (whatever its colour), and establishes it
for all paths of the resulting artwork. -/
theorem rw_loop_paths (c : WalkCtx) (num_walks : ℤ) (cm bc : String) (an : Bool)
    (lw : ℚ) (sm : String) (PP : PathElement → Prop)
    (hstep : ∀ (color : ℤ × ℤ × ℤ) (g : Rng), g.InRange →
      PP { points := (generate_walk c sm g).1, color := color, width := lw, closed := false }) :
    ∀ (k i : ℕ) (art : ArtworkData) (g : Rng), g.InRange →
      (∀ p ∈ art.paths, PP p) → ∀ res,
      rw_loop c num_walks cm bc an lw sm k i art g = some res →
      ∀ p ∈ res.paths, PP p := by
  intro k
  induction k with
  | zero =>
      intro i art g _ hart res hres
      simp only [rw_loop, Option.some.injEq] at hres
      exact hres ▸ hart
  | succ k ih =>
      intro i art g hg hart res hres
      simp only [rw_loop] at hres
      rcases hco : (get_walk_color i num_walks cm bc g).1 with _ | wc
      · rw [hco] at hres
        exact Option.noConfusion hres
      · rw [hco] at hres
        set g1 : Rng := (get_walk_color i num_walks cm bc g).2 with hg1e
        have hg1 : g1.InRange :=
          inRange_of_stream_eq (get_walk_color_stream i num_walks cm bc g) hg
        have hg2 : ((generate_walk c sm g1).2).InRange :=
          inRange_of_stream_eq (generate_walk_stream c sm _) hg1
        set pe : PathElement :=
          { points := (generate_walk c sm g1).1, color := wc, width := lw, closed := false }
          with hpe
        refine ih (i + 1) _ _ hg2 ?_ res hres
        intro p hp
        have hp2 : p ∈ art.paths ++ [pe] := by
          rcases an <;> rcases hlp : pe.points.getLast? with _ | lp <;>
            simp only [hlp] at hp <;> exact hp
        rcases List.mem_append.mp hp2 with hpl | hpr
        · exact hart p hpl
        · rw [List.mem_singleton.mp hpr, hpe]
          exact hstep wc _ hg1

/-- The walk loop appends exactly one path per remaining walk. -/
theorem rw_loop_length (c : WalkCtx) (num_walks : ℤ) (cm bc : String) (an : Bool)
    (lw : ℚ) (sm : String) :
    ∀ (k i : ℕ) (art : ArtworkData) (g : Rng) (res : ArtworkData),
      rw_loop c num_walks cm bc an lw sm k i art g = some res →
      res.paths.length = art.paths.length + k := by
  intro k
  induction k with
  | zero =>
      intro i art g res hres
      simp only [rw_loop, Option.some.injEq] at hres
      simp [← hres]
  | succ k ih =>
      intro i art g res hres
      simp only [rw_loop] at hres
      rcases hco : (get_walk_color i num_walks cm bc g).1 with _ | wc
      · rw [hco] at hres
        exact Option.noConfusion hres
      · rw [hco] at hres
        set g1 : Rng := (get_walk_color i num_walks cm bc g).2 with hg1e
        set pe : PathElement :=
          { points := (generate_walk c sm g1).1, color := wc, width := lw, closed := false }
          with hpe
        have hlen := ih (i + 1) _ _ res hres
        rcases hlp : pe.points.getLast? with _ | lp <;> rcases an <;>
          rw [hlp] at hlen <;>
          simp only [List.length_append, List.length_singleton] at hlen <;>
          omega

/-- `C5`: with boundary policy `stop`, every point of every path of the
returned scene lies within `[0, width] × [0, height]` — an out-of-bounds
candidate is never appended, the walk just ends. -/
theorem C5_stop_policy_points_in_bounds (env : MathEnv) (w h : ℤ) (params0 : RawMap)
    (g0 : Rng) (cb : Bool) (vp : RawMap) (art : ArtworkData)
    (hw : 0 ≤ w) (hh : 0 ≤ h) (hg : g0.InRange)
    (hv : validate_parameters params0 randomWalkSchema = some vp)
    (hb : getV vp "boundary_behavior" = .vStr "stop")
    (hgen : rwGenerate env w h params0 g0 cb = some art) :
    ∀ p ∈ art.paths, ∀ q ∈ p.points,
      0 ≤ q.1 ∧ q.1 ≤ (w : ℚ) ∧ 0 ≤ q.2 ∧ q.2 ≤ (h : ℚ) := by
  simp only [rwGenerate] at hgen
  rw [hv] at hgen
  simp only [Option.bind_eq_bind, Option.some_bind] at hgen
  cases hbg : hex_to_rgb (getV vp "background_color").asStr with
  | none =>
      rw [hbg] at hgen
      exact Option.noConfusion hgen
  | some bg =>
      rw [hbg] at hgen
      simp only [Option.bind_eq_bind, Option.some_bind] at hgen
      have hginit : (if (getV vp "seed").asInt > 0
          then mkSeeded (getV vp "seed").asInt else g0).InRange := by
        split_ifs
        · exact mkSeeded_inRange _
        · exact hg
      refine rw_loop_paths _ _ _ _ _ _ _
        (fun p => ∀ q ∈ p.points, 0 ≤ q.1 ∧ q.1 ≤ (w : ℚ) ∧ 0 ≤ q.2 ∧ q.2 ≤ (h : ℚ))
        ?_ _ _ _ _ hginit (by simp) art hgen
      intro color g hgI q hq
      exact generate_walk_stop_mem _ (by rw [hb]; rfl) hw hh _ g hgI q hq

/-- `C6` (amended): with the *wrap* policy every stepped point satisfies
the strict bounds `0 ≤ x < width`, `0 ≤ y < height`; the starting point —
which the boundary policy is never applied to — satisfies the closed
bounds `0 ≤ x ≤ width`, `0 ≤ y ≤ height` (corner and edge starts can lie
exactly on `x = width` or `y = height`). -/
theorem C6_amended_wrap_bounds (env : MathEnv) (w h : ℤ) (params0 : RawMap)
    (g0 : Rng) (cb : Bool) (vp : RawMap) (art : ArtworkData)
    (hw : 0 < w) (hh : 0 < h) (hg : g0.InRange)
    (hv : validate_parameters params0 randomWalkSchema = some vp)
    (hb : getV vp "boundary_behavior" = .vStr "wrap")
    (hgen : rwGenerate env w h params0 g0 cb = some art) :
    ∀ p ∈ art.paths,
      (∀ q ∈ p.points, 0 ≤ q.1 ∧ q.1 ≤ (w : ℚ) ∧ 0 ≤ q.2 ∧ q.2 ≤ (h : ℚ)) ∧
      (∀ q ∈ p.points.tail, 0 ≤ q.1 ∧ q.1 < (w : ℚ) ∧ 0 ≤ q.2 ∧ q.2 < (h : ℚ)) := by
  simp only [rwGenerate] at hgen
  rw [hv] at hgen
  simp only [Option.bind_eq_bind, Option.some_bind] at hgen
  cases hbg : hex_to_rgb (getV vp "background_color").asStr with
  | none =>
      rw [hbg] at hgen
      exact Option.noConfusion hgen
  | some bg =>
      rw [hbg] at hgen
      simp only [Option.bind_eq_bind, Option.some_bind] at hgen
      have hginit : (if (getV vp "seed").asInt > 0
          then mkSeeded (getV vp "seed").asInt else g0).InRange := by
        split_ifs
        · exact mkSeeded_inRange _
        · exact hg
      refine rw_loop_paths _ _ _ _ _ _ _
        (fun p => (∀ q ∈ p.points, 0 ≤ q.1 ∧ q.1 ≤ (w : ℚ) ∧ 0 ≤ q.2 ∧ q.2 ≤ (h : ℚ)) ∧
          (∀ q ∈ p.points.tail, 0 ≤ q.1 ∧ q.1 < (w : ℚ) ∧ 0 ≤ q.2 ∧ q.2 < (h : ℚ)))
        ?_ _ _ _ _ hginit (by simp) art hgen
      intro color g hgI
      exact generate_walk_wrap_mem _ (by rw [hb]; rfl) hw hh _ g hgI

/-- `C10`: a successful random-walk generation returns exactly the
validated `num_walks` paths, each open (`closed = false`) and holding at
least its start point; a path with fewer than two points contributes no
shape to the SVG export. -/
theorem C10_generate_walks_shape (env : MathEnv) (w h : ℤ) (params0 : RawMap)
    (g0 : Rng) (cb : Bool) (vp : RawMap) (art : ArtworkData)
    (hg : g0.InRange)
    (hv : validate_parameters params0 randomWalkSchema = some vp)
    (hgen : rwGenerate env w h params0 g0 cb = some art) :
    art.paths.length = (getV vp "num_walks").asInt.toNat ∧
    (∀ p ∈ art.paths, p.closed = false ∧ 1 ≤ p.points.length) ∧
    ∀ pe : PathElement, pe.points.length < 2 →
      svgPathShapeCount { art with paths := art.paths ++ [pe] } = svgPathShapeCount art := by
  simp only [rwGenerate] at hgen
  rw [hv] at hgen
  simp only [Option.bind_eq_bind, Option.some_bind] at hgen
  cases hbg : hex_to_rgb (getV vp "background_color").asStr with
  | none =>
      rw [hbg] at hgen
      exact Option.noConfusion hgen
  | some bg =>
      rw [hbg] at hgen
      simp only [Option.bind_eq_bind, Option.some_bind] at hgen
      have hginit : (if (getV vp "seed").asInt > 0
          then mkSeeded (getV vp "seed").asInt else g0).InRange := by
        split_ifs
        · exact mkSeeded_inRange _
        · exact hg
      refine ⟨?_, ?_, ?_⟩
      · have := rw_loop_length _ _ _ _ _ _ _ _ _ _ _ _ hgen
        simpa using this
      · refine rw_loop_paths _ _ _ _ _ _ _
          (fun p => p.closed = false ∧ 1 ≤ p.points.length)
          ?_ _ _ _ _ hginit (by simp) art hgen
        intro color g hgI
        refine ⟨rfl, ?_⟩
        simp only [generate_walk]
        simp
      · intro pe hpe
        have hfilter : List.filter (fun p => decide (2 ≤ p.points.length)) [pe] = [] := by
          rw [List.filter_cons, if_neg]
          · rfl
          · simp only [decide_eq_true_eq]
            omega
        simp [svgPathShapeCount, List.filter_append, hfilter]

theorem constRng_inRange (q : ℚ) (h0 : 0 ≤ q) (h1 : q ≤ 1) : (constRng q).InRange :=
  fun _ => ⟨h0, h1⟩

set_option maxHeartbeats 1000000 in
theorem validate_pC5_eq :
    validate_parameters
      [("boundary_behavior", .vStr "stop"), ("num_walks", .vInt 1),
       ("steps_per_walk", .vInt 10)] randomWalkSchema =
      some [("num_walks", Value.vInt 1), ("steps_per_walk", Value.vInt 10),
        ("step_size", Value.vFloat 5), ("angle_variation", Value.vFloat 180),
        ("line_width", Value.vFloat 1), ("color_mode", Value.vStr "monochrome"),
        ("base_color", Value.vStr "#000000"), ("background_color", Value.vStr "#FFFFFF"),
        ("start_position", Value.vStr "center"), ("boundary_behavior", Value.vStr "stop"),
        ("add_nodes", Value.vBool false), ("seed", Value.vInt 0)] := by
  norm_num +decide [validate_parameters, validateOne, randomWalkSchema, lookupKey,
    pyToInt, pyToFloat, pyToBool, max_def, min_def]

set_option maxHeartbeats 4000000 in
theorem rwGenerate_pC5_eq :
    rwGenerate envTriv 10 10
      [("boundary_behavior", .vStr "stop"), ("num_walks", .vInt 1),
       ("steps_per_walk", .vInt 10)] (constRng 0) false =
    some (ArtworkData.mk 10 10 (255, 255, 255)
      [PathElement.mk (List.replicate 11 ((5 : ℚ), (5 : ℚ))) (0, 0, 0) 1 false] []) := by
  norm_num +decide [rwGenerate, validate_pC5_eq, getV, lookupKey, Value.asInt, Value.asQ,
    Value.asStr, pyToBool, hex_to_rgb, hexPairAt, hexDigit, rw_loop, get_walk_color,
    generate_walk, get_start_position, pyChoiceIdx, pyUniform, Rng.next, constRng, envTriv,
    walk_steps, handle_boundary, qmod, radians, ratTrunc, List.replicate]

/-- Witness for `C5`: a concrete stop-policy run whose single walk starts
at the centre and never leaves it, every point within the canvas box. -/
theorem C5_witness :
    ((ArtworkData.mk 10 10 (255, 255, 255)
      [PathElement.mk (List.replicate 11 ((5 : ℚ), (5 : ℚ))) (0, 0, 0) 1 false] []).paths.all
      fun p => p.points.all fun q =>
        decide (0 ≤ q.1 ∧ q.1 ≤ ((10 : ℤ) : ℚ) ∧ 0 ≤ q.2 ∧ q.2 ≤ ((10 : ℤ) : ℚ))) = true := by
  rw [List.all_eq_true]
  intro p hp
  rw [List.all_eq_true]
  intro q hq
  exact decide_eq_true (C5_stop_policy_points_in_bounds envTriv 10 10 _ (constRng 0) false _ _
    (by norm_num) (by norm_num) (constRng_inRange 0 le_rfl (by norm_num))
    validate_pC5_eq (by decide) rwGenerate_pC5_eq p hp q hq)

/-- Witness for `C10`: the same concrete run returns exactly one open,
non-empty path, and a one-point path adds no SVG shape. -/
theorem C10_witness :
    (ArtworkData.mk 10 10 (255, 255, 255)
      [PathElement.mk (List.replicate 11 ((5 : ℚ), (5 : ℚ))) (0, 0, 0) 1 false] []).paths.length =
      (getV [("num_walks", Value.vInt 1), ("steps_per_walk", Value.vInt 10),
        ("step_size", Value.vFloat 5), ("angle_variation", Value.vFloat 180),
        ("line_width", Value.vFloat 1), ("color_mode", Value.vStr "monochrome"),
        ("base_color", Value.vStr "#000000"), ("background_color", Value.vStr "#FFFFFF"),
        ("start_position", Value.vStr "center"), ("boundary_behavior", Value.vStr "stop"),
        ("add_nodes", Value.vBool false), ("seed", Value.vInt 0)] "num_walks").asInt.toNat ∧
    (∀ p ∈ (ArtworkData.mk 10 10 (255, 255, 255)
      [PathElement.mk (List.replicate 11 ((5 : ℚ), (5 : ℚ))) (0, 0, 0) 1 false] []).paths,
      p.closed = false ∧ 1 ≤ p.points.length) ∧
    ∀ pe : PathElement, pe.points.length < 2 →
      svgPathShapeCount { (ArtworkData.mk 10 10 (255, 255, 255)
        [PathElement.mk (List.replicate 11 ((5 : ℚ), (5 : ℚ))) (0, 0, 0) 1 false] []) with
        paths := (ArtworkData.mk 10 10 (255, 255, 255)
          [PathElement.mk (List.replicate 11 ((5 : ℚ), (5 : ℚ))) (0, 0, 0) 1 false] []).paths
            ++ [pe] } =
      svgPathShapeCount (ArtworkData.mk 10 10 (255, 255, 255)
        [PathElement.mk (List.replicate 11 ((5 : ℚ), (5 : ℚ))) (0, 0, 0) 1 false] []) :=
  C10_generate_walks_shape envTriv 10 10 _ (constRng 0) false _ _
    (constRng_inRange 0 le_rfl (by norm_num)) validate_pC5_eq rwGenerate_pC5_eq

set_option maxHeartbeats 1000000 in
theorem validate_pC6_eq :
    validate_parameters
      [("start_position", .vStr "corners"), ("boundary_behavior", .vStr "wrap"),
       ("num_walks", .vInt 1), ("steps_per_walk", .vInt 10), ("color_mode", .vStr "monochrome")]
      randomWalkSchema =
      some [("num_walks", Value.vInt 1), ("steps_per_walk", Value.vInt 10),
        ("step_size", Value.vFloat 5), ("angle_variation", Value.vFloat 180),
        ("line_width", Value.vFloat 1), ("color_mode", Value.vStr "monochrome"),
        ("base_color", Value.vStr "#000000"), ("background_color", Value.vStr "#FFFFFF"),
        ("start_position", Value.vStr "corners"), ("boundary_behavior", Value.vStr "wrap"),
        ("add_nodes", Value.vBool false), ("seed", Value.vInt 0)] := by
  norm_num +decide [validate_parameters, validateOne, randomWalkSchema, lookupKey,
    pyToInt, pyToFloat, pyToBool, max_def, min_def]

set_option maxHeartbeats 4000000 in
theorem rwGenerate_pC6_eq :
    rwGenerate envTriv 10 10
      [("start_position", .vStr "corners"), ("boundary_behavior", .vStr "wrap"),
       ("num_walks", .vInt 1), ("steps_per_walk", .vInt 10), ("color_mode", .vStr "monochrome")]
      (constRng (3/4)) false =
    some (ArtworkData.mk 10 10 (255, 255, 255)
      [PathElement.mk (((10 : ℚ), (10 : ℚ)) :: List.replicate 10 ((0 : ℚ), (0 : ℚ)))
        (0, 0, 0) 1 false] []) := by
  norm_num +decide [rwGenerate, validate_pC6_eq, getV, lookupKey, Value.asInt, Value.asQ,
    Value.asStr, pyToBool, hex_to_rgb, hexPairAt, hexDigit, rw_loop, get_walk_color,
    generate_walk, get_start_position, pyChoiceIdx, pyUniform, Rng.next, constRng, envTriv,
    walk_steps, handle_boundary, qmod, radians, ratTrunc, List.replicate, List.getD,
    show Int.toNat 3 = 3 from rfl]

/-- `C6` (counterexample): with `start_position = "corners"` the walk's
starting point can be the corner `(width, height)`, which is appended
without any wrap adjustment; the claim's strict bound `x < width` fails at
the very first point of the first path.  The violating point is the start
point, computed before any trigonometric call, so the concrete environment
is irrelevant to it. -/
theorem C6_cex_corner_start_on_boundary :
    (rwGenerate envTriv 10 10
      [("start_position", .vStr "corners"), ("boundary_behavior", .vStr "wrap"),
       ("num_walks", .vInt 1), ("steps_per_walk", .vInt 10), ("color_mode", .vStr "monochrome")]
      (constRng (3/4)) false).map
      (fun art => decide (∀ p ∈ art.paths, ∀ q ∈ p.points,
        0 ≤ q.1 ∧ q.1 < 10 ∧ 0 ≤ q.2 ∧ q.2 < 10)) = some false := by
  rw [rwGenerate_pC6_eq]
  rfl

/-- Witness for the amended `C6`: the concrete corner-start wrap run; the
start point sits on the closed boundary, all stepped points inside the
half-open box. -/
theorem C6_witness :
    ((ArtworkData.mk 10 10 (255, 255, 255)
      [PathElement.mk (((10 : ℚ), (10 : ℚ)) :: List.replicate 10 ((0 : ℚ), (0 : ℚ)))
        (0, 0, 0) 1 false] []).paths.all fun p =>
      (p.points.all fun q =>
        decide (0 ≤ q.1 ∧ q.1 ≤ ((10 : ℤ) : ℚ) ∧ 0 ≤ q.2 ∧ q.2 ≤ ((10 : ℤ) : ℚ))) &&
      (p.points.tail.all fun q =>
        decide (0 ≤ q.1 ∧ q.1 < ((10 : ℤ) : ℚ) ∧ 0 ≤ q.2 ∧ q.2 < ((10 : ℤ) : ℚ)))) = true := by
  rw [List.all_eq_true]
  intro p hp
  have h := C6_amended_wrap_bounds envTriv 10 10 _ (constRng (3/4)) false _ _
    (by norm_num) (by norm_num) (constRng_inRange (3/4) (by norm_num) (by norm_num))
    validate_pC6_eq (by decide) rwGenerate_pC6_eq p hp
  rw [Bool.and_eq_true, List.all_eq_true, List.all_eq_true]
  exact ⟨fun q hq => decide_eq_true (h.1 q hq), fun q hq => decide_eq_true (h.2 q hq)⟩

/-- A successful validation validates each schema entry in order. -/
theorem validate_forall₂ (params : RawMap) :
    ∀ (schema : List (String × PDef)) (vp : RawMap),
      validate_parameters params schema = some vp →
      List.Forall₂ (fun e v => validateOne params e = some v) schema vp := by
  intro schema
  induction schema with
  | nil =>
      intro vp h
      simp only [validate_parameters, Option.some.injEq] at h
      rw [← h]
      exact .nil
  | cons e rest ih =>
      intro vp h
      simp only [validate_parameters, Option.bind_eq_bind, Option.bind_eq_some,
        Option.pure_def, Option.some.injEq] at h
      obtain ⟨v, hv, r, hr, hvr⟩ := h
      exact hvr ▸ .cons hv (ih r hr)

/-- `validate_parameters` keeps the declared parameter name. -/
theorem validateOne_name (params : RawMap) (e : String × PDef) (v : String × Value)
    (h : validateOne params e = some v) : v.1 = e.1 := by
  obtain ⟨name, d⟩ := e
  cases d with
  | pInt dflt lo hi =>
      simp only [validateOne, Option.map_eq_some'] at h
      obtain ⟨n, _, hn⟩ := h
      rw [← hn]
  | pFloat dflt lo hi =>
      simp only [validateOne, Option.map_eq_some'] at h
      obtain ⟨n, _, hn⟩ := h
      rw [← hn]
  | pChoice dflt choices =>
      simp only [validateOne, Option.some.injEq] at h
      rw [← h]
  | pBool dflt =>
      simp only [validateOne, Option.some.injEq] at h
      rw [← h]
  | pColor dflt =>
      simp only [validateOne, Option.some.injEq] at h
      rw [← h]

/-- The validated seed entry of the random-walk schema: the raw integer
clamped into `[0, 999999]`. -/
theorem validate_seed_value (params vp : RawMap) (s : ℤ)
    (hv : validate_parameters params randomWalkSchema = some vp)
    (hs : lookupKey params "seed" = some (.vInt s)) :
    getV vp "seed" = .vInt (min (max s 0) 999999) := by
  have hf := validate_forall₂ params randomWalkSchema vp hv
  rw [randomWalkSchema] at hf
  rcases hf with _ | ⟨h1, hf⟩
  rcases hf with _ | ⟨h2, hf⟩
  rcases hf with _ | ⟨h3, hf⟩
  rcases hf with _ | ⟨h4, hf⟩
  rcases hf with _ | ⟨h5, hf⟩
  rcases hf with _ | ⟨h6, hf⟩
  rcases hf with _ | ⟨h7, hf⟩
  rcases hf with _ | ⟨h8, hf⟩
  rcases hf with _ | ⟨h9, hf⟩
  rcases hf with _ | ⟨h10, hf⟩
  rcases hf with _ | ⟨h11, hf⟩
  rcases hf with _ | ⟨h12, hf⟩
  rcases hf
  next b1 b2 b3 b4 b5 b6 b7 b8 b9 b10 b11 b12 =>
  have hseed : b12 = ("seed", Value.vInt (min (max s 0) 999999)) := by
    have := validateOne_int_eq params "seed" 0 (some 0) (some 999999) s
      (by rw [hs]; rfl)
    rw [this] at h12
    simpa [clampOpt] using h12.symm
  have hn1 := validateOne_name params _ _ h1
  have hn2 := validateOne_name params _ _ h2
  have hn3 := validateOne_name params _ _ h3
  have hn4 := validateOne_name params _ _ h4
  have hn5 := validateOne_name params _ _ h5
  have hn6 := validateOne_name params _ _ h6
  have hn7 := validateOne_name params _ _ h7
  have hn8 := validateOne_name params _ _ h8
  have hn9 := validateOne_name params _ _ h9
  have hn10 := validateOne_name params _ _ h10
  have hn11 := validateOne_name params _ _ h11
  obtain ⟨n1, w1⟩ := b1
  obtain ⟨n2, w2⟩ := b2
  obtain ⟨n3, w3⟩ := b3
  obtain ⟨n4, w4⟩ := b4
  obtain ⟨n5, w5⟩ := b5
  obtain ⟨n6, w6⟩ := b6
  obtain ⟨n7, w7⟩ := b7
  obtain ⟨n8, w8⟩ := b8
  obtain ⟨n9, w9⟩ := b9
  obtain ⟨n10, w10⟩ := b10
  obtain ⟨n11, w11⟩ := b11
  simp only at hn1 hn2 hn3 hn4 hn5 hn6 hn7 hn8 hn9 hn10 hn11
  subst hn1 hn2 hn3 hn4 hn5 hn6 hn7 hn8 hn9 hn10 hn11
  rw [hseed]
  simp [getV, lookupKey]

/-- `C1` (amended): when the raw parameter map carries a positive integer
seed (after clamping into `[0, 999999]` the generator is seeded exactly
when the validated seed is positive), `generate` is a pure function of
`(width, height, params, math environment)`: the ambient random state and
the presence or cadence of a progress sink cannot influence the scene, so
two calls agree exactly — in particular in path counts and pointwise point
sequences. -/
theorem C1_amended_seeded_generate_deterministic (env : MathEnv) (w h : ℤ)
    (params0 : RawMap) (s : ℤ) (g1 g2 : Rng) (cb1 cb2 : Bool)
    (hs : lookupKey params0 "seed" = some (.vInt s)) (hpos : 0 < s) :
    rwGenerate env w h params0 g1 cb1 = rwGenerate env w h params0 g2 cb2 ∧
    ∀ a1 a2, rwGenerate env w h params0 g1 cb1 = some a1 →
      rwGenerate env w h params0 g2 cb2 = some a2 →
      a1.paths.length = a2.paths.length ∧
      ∀ i : ℕ, (a1.paths.getD i (PathElement.mk [] (0, 0, 0) 1 false)).points =
        (a2.paths.getD i (PathElement.mk [] (0, 0, 0) 1 false)).points := by
  have heq : rwGenerate env w h params0 g1 cb1 = rwGenerate env w h params0 g2 cb2 := by
    cases hvp : validate_parameters params0 randomWalkSchema with
    | none =>
        have e1 : rwGenerate env w h params0 g1 cb1 = none := by
          simp [rwGenerate, hvp]
        have e2 : rwGenerate env w h params0 g2 cb2 = none := by
          simp [rwGenerate, hvp]
        rw [e1, e2]
    | some vp =>
        have hseed := validate_seed_value params0 vp s hvp hs
        have hseedpos : (getV vp "seed").asInt > 0 := by
          rw [hseed]
          simp only [Value.asInt]
          omega
        simp only [rwGenerate, hvp, Option.bind_eq_bind, Option.some_bind]
        rw [if_pos hseedpos, if_pos hseedpos]
  refine ⟨heq, fun a1 a2 h1 h2 => ?_⟩
  rw [h1, h2] at heq
  obtain rfl : a1 = a2 := Option.some.injEq _ _ ▸ heq
  exact ⟨rfl, fun _ => rfl⟩

/-- Witness for the amended `C1`: with raw seed `42`, two calls at
different ambient random states and different sink flags agree. -/
theorem C1_witness :
    rwGenerate envTriv 10 10 [("seed", Value.vInt 42)] (constRng 0) true =
      rwGenerate envTriv 10 10 [("seed", Value.vInt 42)] (constRng (1/2)) false :=
  (C1_amended_seeded_generate_deterministic envTriv 10 10 [("seed", Value.vInt 42)] 42
    (constRng 0) (constRng (1/2)) true false (by decide) (by norm_num)).1

set_option maxHeartbeats 4000000 in
theorem rwGenerate_negseed_zero_eq :
    rwGenerate envTriv 10 10
      [("seed", .vInt (-5)), ("num_walks", .vInt 1), ("steps_per_walk", .vInt 10),
       ("start_position", .vStr "random"), ("boundary_behavior", .vStr "ignore")]
      (constRng 0) false =
    some (ArtworkData.mk 10 10 (255, 255, 255)
      [PathElement.mk (List.replicate 11 ((0 : ℚ), (0 : ℚ))) (0, 0, 0) 1 false] []) := by
  have hv : validate_parameters
      [("seed", .vInt (-5)), ("num_walks", .vInt 1), ("steps_per_walk", .vInt 10),
       ("start_position", .vStr "random"), ("boundary_behavior", .vStr "ignore")]
      randomWalkSchema =
      some [("num_walks", Value.vInt 1), ("steps_per_walk", Value.vInt 10),
        ("step_size", Value.vFloat 5), ("angle_variation", Value.vFloat 180),
        ("line_width", Value.vFloat 1), ("color_mode", Value.vStr "monochrome"),
        ("base_color", Value.vStr "#000000"), ("background_color", Value.vStr "#FFFFFF"),
        ("start_position", Value.vStr "random"), ("boundary_behavior", Value.vStr "ignore"),
        ("add_nodes", Value.vBool false), ("seed", Value.vInt 0)] := by
    norm_num +decide [validate_parameters, validateOne, randomWalkSchema, lookupKey,
      pyToInt, pyToFloat, pyToBool, max_def, min_def]
  norm_num +decide [rwGenerate, hv, getV, lookupKey, Value.asInt, Value.asQ,
    Value.asStr, pyToBool, hex_to_rgb, hexPairAt, hexDigit, rw_loop, get_walk_color,
    generate_walk, get_start_position, pyChoiceIdx, pyUniform, Rng.next, constRng, envTriv,
    walk_steps, handle_boundary, qmod, radians, ratTrunc, List.replicate]

set_option maxHeartbeats 4000000 in
theorem rwGenerate_negseed_half_eq :
    rwGenerate envTriv 10 10
      [("seed", .vInt (-5)), ("num_walks", .vInt 1), ("steps_per_walk", .vInt 10),
       ("start_position", .vStr "random"), ("boundary_behavior", .vStr "ignore")]
      (constRng (1/2)) false =
    some (ArtworkData.mk 10 10 (255, 255, 255)
      [PathElement.mk (List.replicate 11 ((5 : ℚ), (5 : ℚ))) (0, 0, 0) 1 false] []) := by
  have hv : validate_parameters
      [("seed", .vInt (-5)), ("num_walks", .vInt 1), ("steps_per_walk", .vInt 10),
       ("start_position", .vStr "random"), ("boundary_behavior", .vStr "ignore")]
      randomWalkSchema =
      some [("num_walks", Value.vInt 1), ("steps_per_walk", Value.vInt 10),
        ("step_size", Value.vFloat 5), ("angle_variation", Value.vFloat 180),
        ("line_width", Value.vFloat 1), ("color_mode", Value.vStr "monochrome"),
        ("base_color", Value.vStr "#000000"), ("background_color", Value.vStr "#FFFFFF"),
        ("start_position", Value.vStr "random"), ("boundary_behavior", Value.vStr "ignore"),
        ("add_nodes", Value.vBool false), ("seed", Value.vInt 0)] := by
    norm_num +decide [validate_parameters, validateOne, randomWalkSchema, lookupKey,
      pyToInt, pyToFloat, pyToBool, max_def, min_def]
  norm_num +decide [rwGenerate, hv, getV, lookupKey, Value.asInt, Value.asQ,
    Value.asStr, pyToBool, hex_to_rgb, hexPairAt, hexDigit, rw_loop, get_walk_color,
    generate_walk, get_start_position, pyChoiceIdx, pyUniform, Rng.next, constRng, envTriv,
    walk_steps, handle_boundary, qmod, radians, ratTrunc, List.replicate]

/-- `C1` (counterexample): the claim quantifies over maps containing any
identical non-zero seed, but a raw seed of `-5` is clamped to `0`, which
leaves the generator unseeded — two calls with identical arguments made at
different ambient random states return pointwise different point
sequences. -/
theorem C1_cex_negative_seed_not_deterministic :
    ((rwGenerate envTriv 10 10
      [("seed", .vInt (-5)), ("num_walks", .vInt 1), ("steps_per_walk", .vInt 10),
       ("start_position", .vStr "random"), ("boundary_behavior", .vStr "ignore")]
      (constRng 0) false).map fun a => a.paths.map (·.points)) ≠
    ((rwGenerate envTriv 10 10
      [("seed", .vInt (-5)), ("num_walks", .vInt 1), ("steps_per_walk", .vInt 10),
       ("start_position", .vStr "random"), ("boundary_behavior", .vStr "ignore")]
      (constRng (1/2)) false).map fun a => a.paths.map (·.points)) := by
  rw [rwGenerate_negseed_zero_eq, rwGenerate_negseed_half_eq]
  decide

/-- `branch_loop` only depends on the recursive call pointwise. -/
theorem branch_loop_congr (f f2 : ℚ → ArtworkData → Rng → Option (ArtworkData × Rng))
    (h : ∀ a art g, f a art g = f2 a art g) (angle angle_spread : ℚ) (nb : ℕ) :
    ∀ (k i : ℕ) (art : ArtworkData) (g : Rng),
      branch_loop f angle angle_spread nb k i art g =
      branch_loop f2 angle angle_spread nb k i art g := by
  intro k
  induction k with
  | zero => intro i art g; rfl
  | succ k ih =>
      intro i art g
      simp only [branch_loop, Option.bind_eq_bind, h]
      exact Option.bind_congr fun rb _ => ih (i + 1) rb.1 rb.2

/-- `draw_branch` is insensitive to the fuel once the fuel covers the
remaining recursion depth `max_depth - depth`: the recursion terminates at
the depth/length guard, never by fuel exhaustion. -/
theorem draw_branch_fuel (c : MathCtx) (max_depth : ℤ) (lw : ℚ) :
    ∀ (f1 f2 : ℕ) (depth : ℤ) (x y ang len : ℚ) (art : ArtworkData) (g : Rng),
      (max_depth + 1 - depth).toNat + 1 ≤ f1 →
      (max_depth + 1 - depth).toNat + 1 ≤ f2 →
      draw_branch c max_depth lw f1 x y ang len depth art g =
      draw_branch c max_depth lw f2 x y ang len depth art g := by
  intro f1
  induction f1 with
  | zero => intro f2 depth x y ang len art g h1 h2; omega
  | succ m ih =>
      intro f2 depth x y ang len art g h1 h2
      cases f2 with
      | zero => omega
      | succ n =>
          by_cases hguard : depth > max_depth ∨ len < 2
          · simp only [draw_branch, if_pos hguard]
          · push_neg at hguard
            simp only [draw_branch,
              if_neg (show ¬(depth > max_depth ∨ len < 2) by push_neg; exact hguard)]
            split_ifs <;>
              first
              | rfl
              | (simp only [Option.bind_eq_bind]
                 refine Option.bind_congr fun bc _ => ?_
                 refine branch_loop_congr _ _ (fun a art2 g2 => ih n (depth + 1) _ _ a _ art2 g2
                   (by omega) (by omega)) _ _ _ _ _ _ _)

/-- `C9`: fractal-tree generation terminates.  `draw_branch` returns
unchanged as soon as the depth exceeds `max_depth = min(3·complexity, 12)`
or the branch length falls below 2 px, and the whole symmetry loop is
insensitive to the recursion fuel once the fuel covers `max_depth + 2`
levels — the recursion tree is finite and `generate` with pattern kind
`fractal_tree` is a total function of its inputs. -/
theorem C9_fractal_tree_terminates (c : MathCtx) (complexity lw : ℚ) (symmetry : ℤ)
    (fuel1 fuel2 : ℕ)
    (h1 : (min (ratTrunc (complexity * 3)) 12 + 1).toNat + 2 ≤ fuel1)
    (h2 : (min (ratTrunc (complexity * 3)) 12 + 1).toNat + 2 ≤ fuel2) :
    (∀ (f : ℕ) (x y ang len : ℚ) (depth : ℤ) (art : ArtworkData) (g : Rng),
      depth > min (ratTrunc (complexity * 3)) 12 ∨ len < 2 →
      draw_branch c (min (ratTrunc (complexity * 3)) 12) lw (f + 1) x y ang len depth art g =
        some (art, g)) ∧
    ∀ (k i : ℕ) (art : ArtworkData) (g : Rng),
      gen_fractal_tree c lw symmetry (min (ratTrunc (complexity * 3)) 12) fuel1 k i art g =
      gen_fractal_tree c lw symmetry (min (ratTrunc (complexity * 3)) 12) fuel2 k i art g := by
  constructor
  · intro f x y ang len depth art g hguard
    simp only [draw_branch, if_pos hguard]
  · intro k
    induction k with
    | zero => intro i art g; rfl
    | succ k ih =>
        intro i art g
        simp only [gen_fractal_tree, Option.bind_eq_bind]
        rw [draw_branch_fuel c _ lw fuel1 fuel2 0 _ _ _ _ _ _ (by omega) (by omega)]
        exact Option.bind_congr fun rd _ => ih (i + 1) rd.1 rd.2

/-- Witness for `C9`: with `complexity = 4` the depth cap is
`min(12, 12) = 12`; fuels `15` and `20` both exceed it and agree. -/
theorem C9_witness :
    (∀ (f : ℕ) (x y ang len : ℚ) (depth : ℤ) (art : ArtworkData) (g : Rng),
      depth > min (ratTrunc ((4 : ℚ) * 3)) 12 ∨ len < 2 →
      draw_branch (MathCtx.mk envTriv 100 100 "#2E86AB" "monochrome" (3/10) 0 1)
        (min (ratTrunc ((4 : ℚ) * 3)) 12) 2 (f + 1) x y ang len depth art g =
        some (art, g)) ∧
    ∀ (k i : ℕ) (art : ArtworkData) (g : Rng),
      gen_fractal_tree (MathCtx.mk envTriv 100 100 "#2E86AB" "monochrome" (3/10) 0 1) 2 1
        (min (ratTrunc ((4 : ℚ) * 3)) 12) 15 k i art g =
      gen_fractal_tree (MathCtx.mk envTriv 100 100 "#2E86AB" "monochrome" (3/10) 0 1) 2 1
        (min (ratTrunc ((4 : ℚ) * 3)) 12) 20 k i art g :=
  C9_fractal_tree_terminates _ 4 2 1 15 20
    (by norm_num [ratTrunc, Int.tdiv_one]; omega)
    (by norm_num [ratTrunc, Int.tdiv_one]; omega)

/-- One iteration of the Lissajous loop body only appends open paths. -/
theorem liss_body_closed (c : MathCtx) (sym : ℕ) (symmetry : ℤ) (lw : ℚ)
    (artwork : ArtworkData) (pts : List (ℚ × ℚ)) (g : Rng) (rart : ArtworkData × Rng)
    (hart : ∀ p ∈ artwork.paths, p.closed = false)
    (hra : liss_step c lw sym symmetry artwork pts g = some rart) :
    ∀ p ∈ rart.1.paths, p.closed = false := by
  rw [liss_step] at hra
  split at hra
  · simp only [Option.bind_eq_bind, Option.bind_eq_some, Option.pure_def,
      Option.some.injEq] at hra
    obtain ⟨pc, hpc, hra⟩ := hra
    rw [← hra]
    intro p hp
    simp only [List.mem_append, List.mem_singleton] at hp
    rcases hp with hp | rfl
    · exact hart p hp
    · rfl
  · simp only [Option.pure_def, Option.some.injEq] at hra
    rw [← hra]
    exact hart

/-- Every path the Lissajous loop appends carries `closed := false`. -/
theorem gen_lissajous_closed (c : MathCtx) (density complexity lw : ℚ)
    (symmetry : ℤ) (ad : ℕ) :
    ∀ (k sym : ℕ) (art : ArtworkData) (g : Rng) (res : ArtworkData × Rng),
      (∀ p ∈ art.paths, p.closed = false) →
      gen_lissajous c density complexity lw symmetry ad k sym art g = some res →
      ∀ p ∈ res.1.paths, p.closed = false := by
  intro k
  induction k with
  | zero =>
      intro sym art g res hart hres
      simp only [gen_lissajous, Option.some.injEq] at hres
      rw [← hres]
      exact hart
  | succ k ih =>
      intro sym art g res hart hres
      simp only [gen_lissajous, Option.bind_eq_bind, Option.bind_eq_some] at hres
      obtain ⟨rart, hra, hrec⟩ := hres
      refine ih (sym + 1) rart.1 rart.2 res ?_ hrec
      exact liss_body_closed _ _ _ _ _ _ _ _ hart hra

/-- `C7`: for every parameter map selecting the Lissajous pattern, every
path of the generated scene is open (`closed = false`) — the regression
fix in the source is unconditional. -/
theorem C7_lissajous_paths_open (env : MathEnv) (w h : ℤ) (params : RawMap)
    (g g2 : Rng) (art : ArtworkData)
    (hp : lookupKey params "pattern_type" = some (.vStr "lissajous"))
    (hgen : mathGenerate env w h params g = some (art, g2)) :
    ∀ p ∈ art.paths, p.closed = false := by
  simp only [mathGenerate, hp, Option.getD_some, Option.bind_eq_bind,
    Option.bind_eq_some] at hgen
  obtain ⟨d, hd, hgen⟩ := hgen
  obtain ⟨cx, hcx, hgen⟩ := hgen
  obtain ⟨sy, hsy, hgen⟩ := hgen
  obtain ⟨lwv, hlwv, hgen⟩ := hgen
  obtain ⟨cv, hcv, hgen⟩ := hgen
  obtain ⟨og, hog, hgen⟩ := hgen
  obtain ⟨cp, hcp, hgen⟩ := hgen
  obtain ⟨bgc, hbgc, hgen⟩ := hgen
  rw [if_pos trivial] at hgen
  exact gen_lissajous_closed _ _ _ _ _ _ _ _ _ _ _ (by simp) hgen

set_option maxHeartbeats 4000000 in
theorem mathGenerate_liss_eq :
    mathGenerate envTriv 100 100
      [("pattern_type", .vStr "lissajous"), ("density", .vInt 5), ("symmetry", .vInt 1),
       ("color", .vStr "#FFFFFF"), ("color_scheme", .vStr "monochrome")]
      (constRng 0) =
    some (ArtworkData.mk 100 100 (255, 255, 255)
      [PathElement.mk (List.replicate 5 ((50 : ℚ), (50 : ℚ))) (127, 127, 127) 2 false] [],
      constRng 0) := by
  norm_num +decide [mathGenerate, lookupKey, Value.toNum, Value.toIndex, Value.asStr,
    hex_to_rgb, hexPairAt, hexDigit, gen_lissajous, liss_step, liss_points, get_color_for_element,
    rgb_to_hsv, mp_hsv_to_rgb, qmod, ratTrunc, pyUniform, Rng.next, constRng, envTriv,
    List.replicate, show Char.toNat 'F' = 70 from rfl]

/-- Witness for `C7`: a concrete Lissajous run; its single path is open. -/
theorem C7_witness :
    ((ArtworkData.mk 100 100 (255, 255, 255)
      [PathElement.mk (List.replicate 5 ((50 : ℚ), (50 : ℚ))) (127, 127, 127) 2 false]
      []).paths.all fun p => !p.closed) = true := by
  rw [List.all_eq_true]
  intro p hp
  rw [Bool.not_eq_true']
  exact C7_lissajous_paths_open envTriv 100 100
    [("pattern_type", .vStr "lissajous"), ("density", .vInt 5), ("symmetry", .vInt 1),
     ("color", .vStr "#FFFFFF"), ("color_scheme", .vStr "monochrome")]
    (constRng 0) (constRng 0) _ (by decide) mathGenerate_liss_eq p hp

set_option maxHeartbeats 4000000 in
theorem mathGenerate_bogus_eq :
    mathGenerate envTriv 100 100
      [("pattern_type", .vStr "bogus"), ("density", .vInt 5), ("symmetry", .vInt 1),
       ("color", .vStr "#FFFFFF"), ("color_scheme", .vStr "monochrome")]
      (constRng 0) =
    some (ArtworkData.mk 100 100 (255, 255, 255) [] [], constRng 0) := by
  norm_num +decide [mathGenerate, lookupKey, Value.toNum, Value.toIndex, Value.asStr,
    hex_to_rgb, hexPairAt, hexDigit, ratTrunc, constRng, envTriv,
    show Char.toNat 'F' = 70 from rfl]

set_option maxHeartbeats 4000000 in
theorem mathGenerate_spiral_eq :
    mathGenerate envTriv 100 100
      [("pattern_type", .vStr "spiral"), ("density", .vInt 5), ("symmetry", .vInt 1),
       ("color", .vStr "#FFFFFF"), ("color_scheme", .vStr "monochrome")]
      (constRng 0) =
    some (ArtworkData.mk 100 100 (255, 255, 255)
      [PathElement.mk (List.replicate 5 ((50 : ℚ), (50 : ℚ))) (127, 127, 127) 2 false] [],
      constRng 0) := by
  norm_num +decide [mathGenerate, lookupKey, Value.toNum, Value.toIndex, Value.asStr,
    hex_to_rgb, hexPairAt, hexDigit, gen_spiral, spiral_points, get_color_for_element,
    rgb_to_hsv, mp_hsv_to_rgb, qmod, ratTrunc, pyUniform, Rng.next, constRng, envTriv,
    List.replicate, show Char.toNat 'F' = 70 from rfl]

/-- `C8`: refuted — `MathematicalPatternsGenerator.generate` never calls
`validate_parameters`, and its dispatch chain has no branch for an unknown
`pattern_type`; the call falls through every `elif` and returns the bare
background scene (no paths, no circles) instead of behaving like the
schema default `spiral`, which on the same arguments draws one path. -/
theorem C8_unknown_pattern_returns_empty_scene :
    mathGenerate envTriv 100 100
      [("pattern_type", .vStr "bogus"), ("density", .vInt 5), ("symmetry", .vInt 1),
       ("color", .vStr "#FFFFFF"), ("color_scheme", .vStr "monochrome")]
      (constRng 0) =
      some (ArtworkData.mk 100 100 (255, 255, 255) [] [], constRng 0) ∧
    mathGenerate envTriv 100 100
      [("pattern_type", .vStr "spiral"), ("density", .vInt 5), ("symmetry", .vInt 1),
       ("color", .vStr "#FFFFFF"), ("color_scheme", .vStr "monochrome")]
      (constRng 0) =
      some (ArtworkData.mk 100 100 (255, 255, 255)
        [PathElement.mk (List.replicate 5 ((50 : ℚ), (50 : ℚ))) (127, 127, 127) 2 false] [],
        constRng 0) ∧
    (ArtworkData.mk 100 100 (255, 255, 255) ([] : List PathElement) []).paths.length = 0 ∧
    (ArtworkData.mk 100 100 (255, 255, 255)
      [PathElement.mk (List.replicate 5 ((50 : ℚ), (50 : ℚ))) (127, 127, 127) 2 false]
      []).paths.length = 1 :=
  ⟨mathGenerate_bogus_eq, mathGenerate_spiral_eq, rfl, rfl⟩

/-- The rejection branch of the overlap loop is dead code: the preceding
line clamps the shrunken radius up to `min_radius` with `max`, so the
`if radius < min_radius: valid = False` test can never fire and every
candidate survives the overlap check. -/
theorem overlap_shrink_fst_true (c : MathCtx) (x y tol mr : ℚ) :
    ∀ (l : List (ℚ × ℚ × ℚ)) (radius : ℚ),
      (overlap_shrink c x y tol mr l radius).1 = true := by
  intro l
  induction l with
  | nil => intro radius; rfl
  | cons hd tl ih =>
      intro radius
      obtain ⟨cx, cy, cr⟩ := hd
      simp only [overlap_shrink]
      split_ifs with h1 h2
      · exact absurd h2 (not_lt.mpr (le_max_left _ _))
      · exact ih _
      · exact ih _

theorem natSqrt529 : Nat.sqrt 529 = 23 :=
  le_antisymm (Nat.lt_succ_iff.mp (Nat.sqrt_lt.mpr (by norm_num)))
    (Nat.le_sqrt.mpr (by norm_num))

theorem natSqrt4 : Nat.sqrt 4 = 2 :=
  le_antisymm (Nat.lt_succ_iff.mp (Nat.sqrt_lt.mpr (by norm_num)))
    (Nat.le_sqrt.mpr (by norm_num))

set_option maxHeartbeats 4000000 in
set_option maxRecDepth 8000 in
theorem mathGenerate_pack_eq :
    (mathGenerate envPack 100 100
      [("pattern_type", .vStr "circle_pack"), ("density", .vInt 2),
       ("complexity", .vFloat 1), ("symmetry", .vInt 1), ("line_width", .vFloat 1),
       ("color_scheme", .vStr "monochrome"), ("color", .vStr "#FFFFFF"),
       ("organic_factor", .vFloat 0), ("completeness", .vFloat 1)]
      (listRng [1/10, 1/2, 0, 43/200, 1/2, 0])).map
      (fun r => (r.1, r.2.pos)) =
    some (ArtworkData.mk 100 100 (255, 255, 255) []
      [CircleElement.mk ((10 : ℚ), (50 : ℚ)) 10 (127, 127, 127) false 1,
       CircleElement.mk ((43/2 : ℚ), (50 : ℚ)) 1 (255, 255, 255) false 1], 6) := by
  norm_num +decide [mathGenerate, lookupKey, Value.toNum, Value.toIndex, Value.asStr,
    hex_to_rgb, hexPairAt, hexDigit, gen_circle_pack, pack_circles, pack_attempt,
    overlap_shrink, pack_emit, pack_emit_one, get_color_for_element, rgb_to_hsv,
    mp_hsv_to_rgb, qmod, ratTrunc, ratSqrt, pyUniform, Rng.next, listRng, envPack,
    List.getD, natSqrt529, natSqrt4, show ((529 : ℤ)).toNat = 529 from rfl,
    show Char.toNat 'F' = 70 from rfl]

/-- `C4`: refuted — the overlap rejection in `_generate_circle_pack` is
dead code (the radius is clamped to `min_radius` with `max` before the
`radius < min_radius` test), so a candidate that overlaps an accepted
circle is shrunk only to `min_radius` and placed anyway: the concrete
run below packs a second circle whose centre distance to the first,
`sqrt((10 - 43/2)^2 + 0) = 23/2`, is less than the radii sum plus the
stroke-width tolerance, `10 + 1 + 1 = 12`. -/
theorem C4_circle_pack_overlap_violation :
    (∀ (c : MathCtx) (x y tol mr : ℚ) (l : List (ℚ × ℚ × ℚ)) (radius : ℚ),
      (overlap_shrink c x y tol mr l radius).1 = true) ∧
    (mathGenerate envPack 100 100
      [("pattern_type", .vStr "circle_pack"), ("density", .vInt 2),
       ("complexity", .vFloat 1), ("symmetry", .vInt 1), ("line_width", .vFloat 1),
       ("color_scheme", .vStr "monochrome"), ("color", .vStr "#FFFFFF"),
       ("organic_factor", .vFloat 0), ("completeness", .vFloat 1)]
      (listRng [1/10, 1/2, 0, 43/200, 1/2, 0])).map
      (fun r => r.1.circles.map fun ci => (ci.center, ci.radius)) =
      some [(((10 : ℚ), (50 : ℚ)), (10 : ℚ)), (((43/2 : ℚ), (50 : ℚ)), (1 : ℚ))] ∧
    envPack.sqrtF ((10 - 43/2) ^ 2 + (50 - 50) ^ 2) < 10 + 1 + 1 := by
  refine ⟨fun c x y tol mr l radius => overlap_shrink_fst_true c x y tol mr l radius,
    ?_, ?_⟩
  · have h := mathGenerate_pack_eq
    rcases hm : mathGenerate envPack 100 100
      [("pattern_type", .vStr "circle_pack"), ("density", .vInt 2),
       ("complexity", .vFloat 1), ("symmetry", .vInt 1), ("line_width", .vFloat 1),
       ("color_scheme", .vStr "monochrome"), ("color", .vStr "#FFFFFF"),
       ("organic_factor", .vFloat 0), ("completeness", .vFloat 1)]
      (listRng [1/10, 1/2, 0, 43/200, 1/2, 0]) with _ | r
    · rw [hm] at h; exact Option.noConfusion h
    · rw [hm] at h
      have h2 : (r.1, r.2.pos) = (ArtworkData.mk 100 100 (255, 255, 255) []
        [CircleElement.mk ((10 : ℚ), (50 : ℚ)) 10 (127, 127, 127) false 1,
         CircleElement.mk ((43/2 : ℚ), (50 : ℚ)) 1 (255, 255, 255) false 1], 6) := by
        simpa using h
      have h1 := congrArg Prod.fst h2
      simp only at h1
      simp [h1]
  · simp only [envPack]
    norm_num [ratSqrt, natSqrt529, natSqrt4, show ((529 : ℤ)).toNat = 529 from rfl]
